import Mathlib

/-!
Shallow embedding of the ABS_Data transformation pipelines
(`src/processing/c21_g01_sa2.py` and `src/processing/c21_g19_sa2.py`).

Cells of a raw record batch are strings, integers, or a null/missing
marker (`pd.isna`).  Floating-point cells are outside the scope of this
embedding; the raw Census extracts handled by the pipelines carry string
and integer cells only.
-/

namespace ABSData

/-- A cell value of a record batch: null/missing, a string, or an integer. -/
inductive Value where
  | null : Value
  | str (s : String) : Value
  | int (n : Int) : Value
deriving DecidableEq, Repr

/-- Python `str(...)` coercion of a non-null cell, as used by
`split_code_and_label` (`str(value)`). -/
def pyStr : Value → String
  | .null => "None"
  | .str s => s
  | .int n => toString n

/-- Python `str.strip()`: remove leading and trailing whitespace. -/
def pyStrip (s : String) : String :=
  String.mk (((s.toList.dropWhile Char.isWhitespace).reverse.dropWhile
    Char.isWhitespace).reverse)

/-- Python's `s or None` idiom on a stripped string: an empty string
becomes `None`. -/
def strOrNone (s : String) : Option String :=
  if s = "" then none else some s

/-- Python `text.partition(":")` on the character list: the part before
the first colon, and — when a colon is present — the part after it. -/
def partitionAtColon : List Char → List Char × Option (List Char)
  | [] => ([], none)
  | c :: cs =>
    if c = ':' then ([], some cs)
    else
      let rest := partitionAtColon cs
      (c :: rest.1, rest.2)

/-- `split_code_and_label` from `src/processing/c21_g01_sa2.py` (lines 31-46):
null input yields `(None, None)`; otherwise the string form is split at the
first colon (`str.partition(":")`); with no colon the stripped text is the
code (or `None` if empty) and the label is `None`; with a colon both parts
are stripped and empty parts become `None`. -/
def split_code_and_label (v : Value) : Option String × Option String :=
  match v with
  | .null => (none, none)
  | v =>
    let text := pyStr v
    match partitionAtColon text.toList with
    | (code, none) => (strOrNone (pyStrip (String.mk code)), none)
    | (code, some label) =>
      (strOrNone (pyStrip (String.mk code)), strOrNone (pyStrip (String.mk label)))

/-- Value of an `Option String` split component when stored back into a
column: `None` is pandas null, a string stays a string. -/
def optToVal : Option String → Value
  | none => .null
  | some s => .str s

/-! ### Record batches (pandas data frames)

A row is an association list from column name to cell value; a frame is a
column-name list plus a row list.  All pipeline operations access cells by
column name, mirroring the pandas code. -/

/-- One row of a record batch: column name to cell value. -/
abbrev Row := List (String × Value)

/-- Column-name list of a row. -/
def rKeys (r : Row) : List String := r.map Prod.fst

/-- Read the cell of column `c` (pandas `row[c]`); absent columns are only
ever read after validation, a missing key reads as null. -/
def rowGet (r : Row) (c : String) : Value :=
  match r.find? (fun p => decide (p.1 = c)) with
  | some p => p.2
  | none => Value.null

/-- Write the cell of column `c`: replace the first existing entry in
place (pandas column assignment keeps column position), append a new
column at the end otherwise. -/
def rowSet : Row → String → Value → Row
  | [], c, v => [(c, v)]
  | p :: r, c, v => if p.1 = c then (c, v) :: r else p :: rowSet r c v

/-- Drop column `c` from a row (pandas `drop(columns=[c])`): keep exactly
the entries whose key differs from `c`. -/
def rowDrop : Row → String → Row
  | [], _ => []
  | p :: r, c => if p.1 = c then rowDrop r c else p :: rowDrop r c

/-- Rename column `old` to `new` in place (pandas `rename(columns=...)`). -/
def rowRename (old new : String) (r : Row) : Row :=
  r.map (fun p => if p.1 = old then (new, p.2) else p)

/-- A record batch: the column names and the rows. -/
structure Frame where
  cols : List String
  rows : List Row
deriving DecidableEq, Repr

/-- pandas `df.drop(columns=["c"])` at frame level (the sources only drop
when the column is present; dropping an absent column is a no-op here,
matching that guard). -/
def frameDropCol (c : String) (f : Frame) : Frame :=
  ⟨f.cols.filter (fun c' => decide (c' ≠ c)), f.rows.map (fun r => rowDrop r c)⟩

/-- Append a column name if not already present (column assignment adds
new columns at the end). -/
def appendColName (cols : List String) (c : String) : List String :=
  if c ∈ cols then cols else cols ++ [c]

/-- One split step of the pipelines: read column `src`, apply
`split_code_and_label`, and assign the two result columns `code`/`label`
(index-aligned column assignment, hence a per-row update). -/
def splitRow (src code label : String) (r : Row) : Row :=
  let cl := split_code_and_label (rowGet r src)
  rowSet (rowSet r code (optToVal cl.1)) label (optToVal cl.2)

/-- Frame-level split step (`working[[code, label]] = ...` in the sources). -/
def splitCol (src code label : String) (f : Frame) : Frame :=
  ⟨appendColName (appendColName f.cols code) label,
   f.rows.map (splitRow src code label)⟩

/-- Frame-level rename of one column. -/
def renameCol (old new : String) (f : Frame) : Frame :=
  ⟨f.cols.map (fun c => if c = old then new else c),
   f.rows.map (rowRename old new)⟩

/-! ### Numeric coercion

`pd.to_numeric(..., errors="coerce")` parses numeric strings (signed
decimals with optional fraction and exponent) and turns everything else
into NaN; `.astype("Int64")` then maps NaN to `<NA>`, integer-valued
numbers to integers, and RAISES (`TypeError: cannot safely cast`) when
the column holds a non-integral number, and on non-finite (`inf`)
values.  Decimal strings are parsed here exactly (as `num / 10 ^ shift`),
so the model agrees with the float64 path whenever the values involved
are exactly representable; cast-safety hypotheses below restrict to
magnitudes `< 2 ^ 53` where float64 arithmetic is exact, keeping
float64-rounding corner cases (near-integral decimals, int64-boundary
magnitudes) out of every theorem's domain. -/

/-- An exact decimal number `num / 10 ^ shift`, the value denoted by a
numeric literal. -/
structure Dec where
  num : Int
  shift : Nat
deriving DecidableEq, Repr

/-- Whether the decimal denotes an integer. -/
def Dec.isInt (d : Dec) : Bool := d.num % ((10 : Int) ^ d.shift) == 0

/-- The integer a decimal denotes (meaningful when `isInt`). -/
def Dec.toInt (d : Dec) : Int := d.num / ((10 : Int) ^ d.shift)

/-- Parse a digit run to a natural number; `none` on empty or non-digit. -/
def digitsToNat (l : List Char) : Option Nat :=
  if l = [] then none
  else if l.all Char.isDigit then
    some (l.foldl (fun n c => n * 10 + (c.toNat - '0'.toNat)) 0)
  else none

/-- Value of a (known) digit run. -/
def digitsVal (l : List Char) : Nat :=
  l.foldl (fun n c => n * 10 + (c.toNat - '0'.toNat)) 0

/-- Strip one optional leading sign. -/
def parseSign : List Char → Int × List Char
  | '-' :: rest => (-1, rest)
  | '+' :: rest => (1, rest)
  | l => (1, l)

/-- Parse a numeric literal the way the pandas parser does: optional
sign, digits with an optional fraction part (at least one digit in
total), and an optional `e`/`E` exponent; surrounding whitespace is
ignored.  `"601"`, `"601.0"`, `"1.5"`, `"6e2"`, `"-1.25e2"` parse;
`"SA2"`, `""`, `"nan"`, `"inf"`, `"1.2.3"` do not. -/
def parseDec (s : String) : Option Dec :=
  let (sign, l1) := parseSign (pyStrip s).toList
  let ipart := l1.takeWhile Char.isDigit
  let l2 := l1.dropWhile Char.isDigit
  let (fpart, l3) :=
    match l2 with
    | '.' :: rest => (rest.takeWhile Char.isDigit, rest.dropWhile Char.isDigit)
    | _ => ([], l2)
  if ipart.length + fpart.length = 0 then none
  else
    let mant : Int := sign * (digitsVal (ipart ++ fpart) : Int)
    match l3 with
    | [] => some ⟨mant, fpart.length⟩
    | e :: rest =>
      if e = 'e' ∨ e = 'E' then
        let (esign, r2) := parseSign rest
        match digitsToNat r2 with
        | some ev =>
          let net : Int := esign * (ev : Int) - (fpart.length : Int)
          if 0 ≤ net then some ⟨mant * (10 : Int) ^ net.toNat, 0⟩
          else some ⟨mant, (-net).toNat⟩
        | none => none
      else none

/-- The infinity literals the pandas parser accepts (which `astype` then
raises on); `parseDec` leaves them unparsed, so they are singled out. -/
def isInfLiteral (s : String) : Bool :=
  let l := (pyStrip s).toList.map Char.toLower
  let l := (parseSign l).2
  l == "inf".toList || l == "infinity".toList

/-- `pd.to_numeric(v, errors="coerce")` on one cell: null/unparsable
becomes NaN (`none`), numbers keep their exact decimal value. -/
def to_numeric_coerce : Value → Option Dec
  | .null => none
  | .int n => some ⟨n, 0⟩
  | .str s => parseDec s

/-- `astype("Int64")` on one coerced cell, as evaluated once the
column-level raise check (`castColumnRaises`) has passed: NaN becomes
null, an integral number becomes its integer.  The transforms consult
`castColumnRaises` first, exactly as `astype` raises for the whole
column before any converted value is produced, so the non-integral
branch here is never reached by them. -/
def int64OfValue (v : Value) : Value :=
  match to_numeric_coerce v with
  | none => .null
  | some d => if d.isInt then .int d.toInt else .null

/-- Whether `astype("Int64")` raises on this coerced cell: an infinity
literal, a non-integral number, or an integer out of Int64 range. -/
def castCellRaises (v : Value) : Bool :=
  match v with
  | .null => false
  | .int n => decide (2 ^ 63 ≤ n.natAbs)
  | .str s =>
    if isInfLiteral s then true
    else
      match parseDec s with
      | some d => !d.isInt || decide (2 ^ 63 ≤ d.toInt.natAbs)
      | none => false

/-- Whether the `astype("Int64")` cast of column `c` raises: it does as
soon as any cell of the column does. -/
def castColumnRaises (c : String) (f : Frame) : Bool :=
  f.rows.any (fun r => castCellRaises (rowGet r c))

/-- Per-row cast of one column. -/
def castRow (c : String) (r : Row) : Row :=
  rowSet r c (int64OfValue (rowGet r c))

/-- Frame-level cast of column `c` to nullable integer. -/
def castIntCol (c : String) (f : Frame) : Frame :=
  ⟨f.cols, f.rows.map (castRow c)⟩

/-- Cast-safety of one raw cell: null; an integer of magnitude below
`2 ^ 53` (exact in float64 and within Int64); or a string that is not an
infinity literal and either fails numeric parsing (pandas NaN, cast to
null) or denotes an integer of magnitude below `2 ^ 53`.  On such cells
the exact-decimal model and pandas agree and `astype` does not raise. -/
def cellCastSafeb : Value → Bool
  | .null => true
  | .int n => decide (n.natAbs < 2 ^ 53)
  | .str s =>
    !isInfLiteral s &&
      match parseDec s with
      | some d => d.isInt && decide (d.toInt.natAbs < 2 ^ 53)
      | none => true

/-- Cast-safety of a raw input batch: every cell of the two numeric
source columns (time period and observation value) is cast-safe. -/
def castSafeInput (f : Frame) : Prop :=
  ∀ r ∈ f.rows,
    cellCastSafeb (rowGet r "TIME_PERIOD: Time Period") = true ∧
      cellCastSafeb (rowGet r "OBS_VALUE") = true

instance (f : Frame) : Decidable (castSafeInput f) :=
  inferInstanceAs (Decidable (∀ r ∈ f.rows,
    cellCastSafeb (rowGet r "TIME_PERIOD: Time Period") = true ∧
      cellCastSafeb (rowGet r "OBS_VALUE") = true))

/-- Projection `working[cols]`: keep exactly `cols`, in that order. -/
def projectFrame (cols : List String) (f : Frame) : Frame :=
  ⟨cols, f.rows.map (fun r => cols.map (fun c => (c, rowGet r c)))⟩

/-! ### Sorting and de-duplication

pandas `sort_values` orders by the declared key columns ascending with
nulls last (`na_position="last"`); key cells in the pipelines are split
codes (strings or null).  `drop_duplicates()` de-duplicates on full row
content keeping the first occurrence. -/

/-- Code-point lexicographic string comparison (Python string `<=`,
which pandas uses when sorting string key columns). -/
def charListLEb : List Char → List Char → Bool
  | [], _ => true
  | _ :: _, [] => false
  | a :: as, b :: bs => if a = b then charListLEb as bs else decide (a < b)

/-- Lexicographic order on strings by code point. -/
def strLE (s t : String) : Prop := charListLEb s.toList t.toList = true

theorem charListLEb_total : ∀ (s t : List Char),
    charListLEb s t = true ∨ charListLEb t s = true
  | [], _ => Or.inl rfl
  | _ :: _, [] => Or.inr rfl
  | a :: as, b :: bs => by
    by_cases h : a = b
    · subst h
      simpa [charListLEb] using charListLEb_total as bs
    · rcases lt_or_gt_of_ne h with hlt | hgt
      · exact Or.inl (by simp [charListLEb, h, hlt])
      · exact Or.inr (by simp [charListLEb, Ne.symm h, hgt])

theorem charListLEb_trans : ∀ (s t u : List Char),
    charListLEb s t = true → charListLEb t u = true →
      charListLEb s u = true
  | [], _, _, _, _ => rfl
  | _ :: _, [], _, h1, _ => by simp [charListLEb] at h1
  | _ :: _, _ :: _, [], _, h2 => by simp [charListLEb] at h2
  | a :: as, b :: bs, c :: cs, h1, h2 => by
    by_cases hab : a = b <;> by_cases hbc : b = c
    · subst hab; subst hbc
      simp only [charListLEb, if_pos rfl] at h1 h2 ⊢
      exact charListLEb_trans as bs cs h1 h2
    · subst hab
      simp only [charListLEb, if_pos rfl] at h1
      simp only [charListLEb, if_neg hbc] at h2 ⊢
      exact h2
    · subst hbc
      simp only [charListLEb, if_neg hab] at h1 ⊢
      exact h1
    · simp only [charListLEb, if_neg hab, decide_eq_true_eq] at h1
      simp only [charListLEb, if_neg hbc, decide_eq_true_eq] at h2
      have hlt := lt_trans h1 h2
      simp [charListLEb, ne_of_lt hlt, hlt]

theorem charListLEb_antisymm : ∀ (s t : List Char),
    charListLEb s t = true → charListLEb t s = true → s = t
  | [], [], _, _ => rfl
  | [], _ :: _, _, h2 => by simp [charListLEb] at h2
  | _ :: _, [], h1, _ => by simp [charListLEb] at h1
  | a :: as, b :: bs, h1, h2 => by
    by_cases hab : a = b
    · subst hab
      simp only [charListLEb, if_pos rfl] at h1 h2
      rw [charListLEb_antisymm as bs h1 h2]
    · simp only [charListLEb, if_neg hab, decide_eq_true_eq] at h1
      simp only [charListLEb, if_neg (Ne.symm hab), decide_eq_true_eq] at h2
      exact absurd h2 (lt_asymm h1)

theorem strLE_total (s t : String) : strLE s t ∨ strLE t s :=
  charListLEb_total s.toList t.toList

theorem strLE_trans {s t u : String} (h1 : strLE s t) (h2 : strLE t u) :
    strLE s u :=
  charListLEb_trans s.toList t.toList u.toList h1 h2

theorem strLE_antisymm {s t : String} (h1 : strLE s t) (h2 : strLE t s) :
    s = t := by
  have := charListLEb_antisymm s.toList t.toList h1 h2
  exact String.toList_inj.mp this

/-- Ascending cell order used by `sort_values` on a key column: integers
before strings (mixed-type keys do not occur in the pipelines' key
columns), nulls last. -/
def valLE : Value → Value → Prop
  | .int m, .int n => m ≤ n
  | .int _, .str _ => True
  | .int _, .null => True
  | .str _, .int _ => False
  | .str s, .str t => strLE s t
  | .str _, .null => True
  | .null, .null => True
  | .null, .int _ => False
  | .null, .str _ => False

instance : DecidableRel valLE := fun a b =>
  match a, b with
  | .int m, .int n => inferInstanceAs (Decidable (m ≤ n))
  | .int _, .str _ => isTrue trivial
  | .int _, .null => isTrue trivial
  | .str _, .int _ => isFalse (fun h => h)
  | .str s, .str t =>
    inferInstanceAs (Decidable (charListLEb s.toList t.toList = true))
  | .str _, .null => isTrue trivial
  | .null, .null => isTrue trivial
  | .null, .int _ => isFalse (fun h => h)
  | .null, .str _ => isFalse (fun h => h)

theorem valLE_total (a b : Value) : valLE a b ∨ valLE b a := by
  cases a <;> cases b <;> simp only [valLE] <;>
    first
      | exact Or.inl trivial
      | exact Or.inr trivial
      | exact le_total _ _
      | exact strLE_total _ _

theorem valLE_trans {a b c : Value} (h1 : valLE a b) (h2 : valLE b c) :
    valLE a c := by
  cases a <;> cases b <;> cases c <;> simp_all only [valLE] <;>
    first
      | exact le_trans h1 h2
      | exact strLE_trans h1 h2

theorem valLE_antisymm {a b : Value} (h1 : valLE a b) (h2 : valLE b a) :
    a = b := by
  cases a <;> cases b <;>
    simp_all only [valLE, Value.str.injEq, Value.int.injEq] <;>
    first
      | exact le_antisymm h1 h2
      | exact strLE_antisymm h1 h2

instance : IsTotal Value valLE := ⟨valLE_total⟩

instance : IsTrans Value valLE := ⟨fun _ _ _ => valLE_trans⟩

/-- Strict cell order. -/
def valLT (a b : Value) : Prop := valLE a b ∧ ¬ valLE b a

instance : DecidableRel valLT := fun _ _ => instDecidableAnd

/-- A code → label lookup row. -/
abbrev LookupRow := Value × Value

/-- A geography lookup row: `(geog_id, geog_name, geog_type, state)`. -/
abbrev GeoRow := Value × Value × Value × Value

/-- `sort_values(by=[key])` order on a code → label lookup: by the code
column. -/
def lookupLE (p q : LookupRow) : Prop := valLE p.1 q.1

instance : DecidableRel lookupLE := fun p q =>
  inferInstanceAs (Decidable (valLE p.1 q.1))

instance : IsTotal LookupRow lookupLE := ⟨fun p q => valLE_total p.1 q.1⟩

instance : IsTrans LookupRow lookupLE :=
  ⟨fun _ _ _ h1 h2 => valLE_trans h1 h2⟩

/-- The sort key of a geography lookup row: `(geog_type, geog_id)`. -/
def geoKey (g : GeoRow) : Value × Value := (g.2.2.1, g.1)

/-- `sort_values(by=["geog_type", "geog_id"])` order: lexicographic on the
two key cells. -/
def geoLE (g h : GeoRow) : Prop :=
  valLT (geoKey g).1 (geoKey h).1 ∨
    ((geoKey g).1 = (geoKey h).1 ∧ valLE (geoKey g).2 (geoKey h).2)

instance : DecidableRel geoLE := fun _ _ => instDecidableOr

instance : IsTotal GeoRow geoLE := by
  refine ⟨fun g h => ?_⟩
  rcases valLE_total (geoKey g).1 (geoKey h).1 with h1 | h1
  · by_cases h2 : valLE (geoKey h).1 (geoKey g).1
    · have he := valLE_antisymm h1 h2
      rcases valLE_total (geoKey g).2 (geoKey h).2 with h3 | h3
      · exact Or.inl (Or.inr ⟨he, h3⟩)
      · exact Or.inr (Or.inr ⟨he.symm, h3⟩)
    · exact Or.inl (Or.inl ⟨h1, h2⟩)
  · by_cases h2 : valLE (geoKey g).1 (geoKey h).1
    · have he := valLE_antisymm h2 h1
      rcases valLE_total (geoKey g).2 (geoKey h).2 with h3 | h3
      · exact Or.inl (Or.inr ⟨he, h3⟩)
      · exact Or.inr (Or.inr ⟨he.symm, h3⟩)
    · exact Or.inr (Or.inl ⟨h1, h2⟩)

instance : IsTrans GeoRow geoLE := by
  refine ⟨fun g h k hgh hhk => ?_⟩
  rcases hgh with ⟨h1, h1n⟩ | ⟨he1, h1⟩
  · rcases hhk with ⟨h2, h2n⟩ | ⟨he2, h2⟩
    · exact Or.inl ⟨valLE_trans h1 h2, fun hc => h1n (valLE_trans h2 hc)⟩
    · exact Or.inl ⟨he2 ▸ h1, he2 ▸ h1n⟩
  · rcases hhk with ⟨h2, h2n⟩ | ⟨he2, h2⟩
    · exact Or.inl ⟨he1 ▸ h2, he1 ▸ h2n⟩
    · exact Or.inr ⟨he1.trans he2, valLE_trans h1 h2⟩

/-- pandas `drop_duplicates()`: de-duplicate on full row content, keeping
the first occurrence of each row. -/
def dropDuplicates {α : Type} [DecidableEq α] : List α → List α
  | [] => []
  | a :: l => a :: (dropDuplicates l).filter (fun b => decide (b ≠ a))

/-- `drop_duplicates().sort_values(by=key)`: the shared lookup-building
step of both pipelines. -/
def sortedLookup {α : Type} [DecidableEq α] (le : α → α → Prop)
    [DecidableRel le] (rows : List α) : List α :=
  List.insertionSort le (dropDuplicates rows)

/-- `_merge_and_write_lookup` from `src/processing/c21_g19_sa2.py`
(lines 38-53), table part: if the target file exists, union its rows with
the new rows, de-duplicate, and sort by the key; otherwise just sort the
new rows. -/
def mergeLookup {α : Type} [DecidableEq α] (le : α → α → Prop)
    [DecidableRel le] (existing : Option (List α)) (newRows : List α) :
    List α :=
  match existing with
  | some ex => List.insertionSort le (dropDuplicates (ex ++ newRows))
  | none => List.insertionSort le newRows

/-! ### Pipeline A — `transform_c21_g01_sa2` -/

/-- Error taxonomy of the pipelines: `ValueError` on missing expected
columns (carrying the list of missing columns the message names),
`FileNotFoundError` on a missing input artifact, and the
`TypeError`/`ValueError` the `astype("Int64")` cast raises on a column
holding non-integral or non-finite numeric values (carrying the column
name). -/
inductive PipelineError where
  | validation (missing : List String)
  | notFound (path : String)
  | typeError (column : String)
deriving DecidableEq, Repr

/-- `expected_cols` of `transform_c21_g01_sa2` (the Python source uses a
set; the claims only depend on its membership). -/
def expectedColsA : List String :=
  ["SEXP: Sex", "PCHAR: Selected person characteristic", "REGION: Region",
   "REGION_TYPE: Region Type", "STATE: State", "TIME_PERIOD: Time Period",
   "OBS_VALUE", "DATAFLOW"]

/-- `expected_cols` of `transform_c21_g19_sa2`. -/
def expectedColsB : List String :=
  ["SEXP: Sex", "LTHP: Type of long-term health condition", "AGEP: Age",
   "REGION: Region", "REGION_TYPE: Region Type", "STATE: State",
   "TIME_PERIOD: Time Period", "OBS_VALUE", "DATAFLOW"]

/-- `missing = [c for c in expected_cols if c not in df.columns and
c != "DATAFLOW"]`. -/
def missingColumns (expected : List String) (f : Frame) : List String :=
  expected.filter (fun c => decide (c ∉ f.cols ∧ c ≠ "DATAFLOW"))

/-- `ProcessedOutputs` of `c21_g01_sa2.py`. -/
structure OutputsA where
  fact : Frame
  geo_lookup : List GeoRow
  sex_lookup : List LookupRow
  age_lookup : List LookupRow
  geog_type_lookup : List LookupRow
  state_lookup : List LookupRow
deriving DecidableEq, Repr

/-- `fact_cols` of Pipeline A. -/
def factColsA : List String :=
  ["sex", "age_group", "geog_id", "geog_type", "state", "year", "persons"]

/-- The `working` frame of `transform_c21_g01_sa2` after the DATAFLOW
drop, the five code/label splits and the renames (source lines 71-92),
just before the numeric casts. -/
def preCastA (df : Frame) : Frame :=
  renameCol "OBS_VALUE" "persons" (renameCol "TIME_PERIOD: Time Period" "year"
    (splitCol "STATE: State" "state" "state_label"
      (splitCol "REGION_TYPE: Region Type" "geog_type" "geog_type_label"
        (splitCol "REGION: Region" "geog_id" "geog_name"
          (splitCol "PCHAR: Selected person characteristic" "age_group" "age_group_label"
            (splitCol "SEXP: Sex" "sex" "sex_label"
              (frameDropCol "DATAFLOW" df)))))))

/-- The `working` frame of `transform_c21_g01_sa2` after the numeric
casts as well (source lines 71-96, in source order). -/
def workingFrameA (df : Frame) : Frame :=
  castIntCol "year" (castIntCol "persons" (preCastA df))

/-- Geography lookup row of a working row. -/
def geoRowOf (r : Row) : GeoRow :=
  (rowGet r "geog_id", rowGet r "geog_name", rowGet r "geog_type",
   rowGet r "state")

/-- Code/label lookup row of a working row for a given pair of columns. -/
def lookupRowOf (code label : String) (r : Row) : LookupRow :=
  (rowGet r code, rowGet r label)

/-- `transform_c21_g01_sa2` (source lines 53-117): validate, split,
rename, cast, project the fact table, and build the five de-duplicated
sorted lookups.  The persons cast raises before the year cast; since the
persons cast does not touch the year column, both raise conditions are
read off the pre-cast frame. -/
def transform_c21_g01_sa2 (df : Frame) : Except PipelineError OutputsA :=
  let missing := missingColumns expectedColsA df
  if missing ≠ [] then .error (.validation missing)
  else if castColumnRaises "persons" (preCastA df) then .error (.typeError "persons")
  else if castColumnRaises "year" (preCastA df) then .error (.typeError "year")
  else
    let working := workingFrameA df
    .ok
    { fact := projectFrame factColsA working
      geo_lookup := sortedLookup geoLE (working.rows.map geoRowOf)
      sex_lookup :=
        sortedLookup lookupLE (working.rows.map (lookupRowOf "sex" "sex_label"))
      age_lookup :=
        sortedLookup lookupLE
          (working.rows.map (lookupRowOf "age_group" "age_group_label"))
      geog_type_lookup :=
        sortedLookup lookupLE
          (working.rows.map (lookupRowOf "geog_type" "geog_type_label"))
      state_lookup :=
        sortedLookup lookupLE
          (working.rows.map (lookupRowOf "state" "state_label")) : OutputsA }

/-! ### Pipeline B — `transform_c21_g19_sa2` -/

/-- `ProcessedOutputs` of `c21_g19_sa2.py`. -/
structure OutputsB where
  fact : Frame
  health_condition_lookup : List LookupRow
  geo_lookup : List GeoRow
  sex_lookup : List LookupRow
  age_lookup : List LookupRow
  geog_type_lookup : List LookupRow
  state_lookup : List LookupRow
deriving DecidableEq, Repr

/-- `fact_cols` of Pipeline B. -/
def factColsB : List String :=
  ["sex", "lthc", "age_group", "geog_id", "geog_type", "state", "year",
   "persons"]

/-- The pre-cast `working` frame of `transform_c21_g19_sa2` (source
lines 75-97): same as Pipeline A with the extra health-condition split
and the `AGEP: Age` column as the age source. -/
def preCastB (df : Frame) : Frame :=
  renameCol "OBS_VALUE" "persons" (renameCol "TIME_PERIOD: Time Period" "year"
    (splitCol "STATE: State" "state" "state_label"
      (splitCol "REGION_TYPE: Region Type" "geog_type" "geog_type_label"
        (splitCol "REGION: Region" "geog_id" "geog_name"
          (splitCol "AGEP: Age" "age_group" "age_group_label"
            (splitCol "LTHP: Type of long-term health condition" "lthc" "health_condition"
              (splitCol "SEXP: Sex" "sex" "sex_label"
                (frameDropCol "DATAFLOW" df))))))))

/-- The `working` frame of `transform_c21_g19_sa2` after the numeric
casts as well (source lines 75-101). -/
def workingFrameB (df : Frame) : Frame :=
  castIntCol "year" (castIntCol "persons" (preCastB df))

/-- `transform_c21_g19_sa2` (source lines 56-148), with the same
cast-raise exits as Pipeline A. -/
def transform_c21_g19_sa2 (df : Frame) : Except PipelineError OutputsB :=
  let missing := missingColumns expectedColsB df
  if missing ≠ [] then .error (.validation missing)
  else if castColumnRaises "persons" (preCastB df) then .error (.typeError "persons")
  else if castColumnRaises "year" (preCastB df) then .error (.typeError "year")
  else
    let working := workingFrameB df
    .ok
    { fact := projectFrame factColsB working
      health_condition_lookup :=
        sortedLookup lookupLE
          (working.rows.map (lookupRowOf "lthc" "health_condition"))
      geo_lookup := sortedLookup geoLE (working.rows.map geoRowOf)
      sex_lookup :=
        sortedLookup lookupLE (working.rows.map (lookupRowOf "sex" "sex_label"))
      age_lookup :=
        sortedLookup lookupLE
          (working.rows.map (lookupRowOf "age_group" "age_group_label"))
      geog_type_lookup :=
        sortedLookup lookupLE
          (working.rows.map (lookupRowOf "geog_type" "geog_type_label"))
      state_lookup :=
        sortedLookup lookupLE
          (working.rows.map (lookupRowOf "state" "state_label")) : OutputsB }

/-! ### Persisted state — the processed-data directory

One slot per Parquet artifact the two pipelines write; `none` means the
file does not exist. -/

/-- The processed-data directory, one field per artifact name. -/
structure Store where
  g01_population : Option Frame
  g01_geo : Option (List GeoRow)
  g01_sex : Option (List LookupRow)
  g01_age : Option (List LookupRow)
  g01_geog_type : Option (List LookupRow)
  g01_state : Option (List LookupRow)
  g19_health_conditions : Option Frame
  g19_health_condition_lookup : Option (List LookupRow)
  common_health_condition_lookup : Option (List LookupRow)
  g19_geo : Option (List GeoRow)
  g19_sex : Option (List LookupRow)
  g19_age : Option (List LookupRow)
  g19_geog_type : Option (List LookupRow)
  g19_state : Option (List LookupRow)
deriving DecidableEq, Repr

/-- A directory with no artifacts yet. -/
def emptyStore : Store :=
  ⟨none, none, none, none, none, none, none, none, none, none, none, none,
   none, none⟩

/-- Write-output part of `process_c21_g01_sa2` (source lines 144-157):
transform, then, when writing, overwrite the fact artifact and the five
lookup artifacts.  On a validation error nothing is written. -/
def process_c21_g01_sa2 (df : Frame) (store : Store) (write_output : Bool) :
    Except PipelineError OutputsA × Store :=
  match transform_c21_g01_sa2 df with
  | .error e => (.error e, store)
  | .ok outputs =>
    if write_output then
      (.ok outputs,
       { store with
         g01_population := some outputs.fact
         g01_geo := some outputs.geo_lookup
         g01_sex := some outputs.sex_lookup
         g01_age := some outputs.age_lookup
         g01_geog_type := some outputs.geog_type_lookup
         g01_state := some outputs.state_lookup })
    else (.ok outputs, store)

/-- Write-output part of `process_c21_g19_sa2` (source lines 177-237):
transform, write the fact artifact and the standalone health-condition
lookup artifact, then either merge into the shared lookup files
(`merge_health_lookup` / `reuse_base_lookups`, both `True` by default,
replacing the corresponding fields of the returned outputs with the
merged tables) or write standalone `c21_g19_sa2_*` lookup artifacts.
On a validation error nothing is written. -/
def process_c21_g19_sa2 (df : Frame) (store : Store) (write_output : Bool)
    (reuse_base_lookups : Bool) (merge_health_lookup : Bool) :
    Except PipelineError OutputsB × Store :=
  match transform_c21_g19_sa2 df with
  | .error e => (.error e, store)
  | .ok outputs =>
    if write_output then
      let store := { store with
        g19_health_conditions := some outputs.fact
        g19_health_condition_lookup := some outputs.health_condition_lookup }
      let (outputs, store) :=
        if merge_health_lookup then
          let merged :=
            mergeLookup lookupLE store.common_health_condition_lookup
              outputs.health_condition_lookup
          ({ outputs with health_condition_lookup := merged },
           { store with common_health_condition_lookup := some merged })
        else (outputs, store)
      if reuse_base_lookups then
        let geo := mergeLookup geoLE store.g01_geo outputs.geo_lookup
        let sex := mergeLookup lookupLE store.g01_sex outputs.sex_lookup
        let age := mergeLookup lookupLE store.g01_age outputs.age_lookup
        let geogType :=
          mergeLookup lookupLE store.g01_geog_type outputs.geog_type_lookup
        let state := mergeLookup lookupLE store.g01_state outputs.state_lookup
        (.ok { outputs with
               geo_lookup := geo
               sex_lookup := sex
               age_lookup := age
               geog_type_lookup := geogType
               state_lookup := state },
         { store with
           g01_geo := some geo
           g01_sex := some sex
           g01_age := some age
           g01_geog_type := some geogType
           g01_state := some state })
      else
        (.ok outputs,
         { store with
           g19_geo := some outputs.geo_lookup
           g19_sex := some outputs.sex_lookup
           g19_age := some outputs.age_lookup
           g19_geog_type := some outputs.geog_type_lookup
           g19_state := some outputs.state_lookup })
    else (.ok outputs, store)

/-! ### Per-row view of the transforms

Every frame-level step of the transforms maps a fixed function over the
rows, so the whole working frame is a per-row composite; these named
composites support stating the 1:1 row correspondence of the fact
projection. -/

/-- The five split steps of Pipeline A applied to one row (after the
DATAFLOW drop), in source order. -/
def splitsA (r : Row) : Row :=
  splitRow "STATE: State" "state" "state_label"
    (splitRow "REGION_TYPE: Region Type" "geog_type" "geog_type_label"
      (splitRow "REGION: Region" "geog_id" "geog_name"
        (splitRow "PCHAR: Selected person characteristic" "age_group" "age_group_label"
          (splitRow "SEXP: Sex" "sex" "sex_label" (rowDrop r "DATAFLOW")))))

/-- One row of Pipeline A's pre-cast working frame: drop, splits,
renames. -/
def preCastRowA (r : Row) : Row :=
  rowRename "OBS_VALUE" "persons"
    (rowRename "TIME_PERIOD: Time Period" "year" (splitsA r))

/-- One row of Pipeline A's working frame: drop, splits, renames, casts. -/
def transformRowA (r : Row) : Row :=
  castRow "year" (castRow "persons" (preCastRowA r))

/-- The six split steps of Pipeline B applied to one row. -/
def splitsB (r : Row) : Row :=
  splitRow "STATE: State" "state" "state_label"
    (splitRow "REGION_TYPE: Region Type" "geog_type" "geog_type_label"
      (splitRow "REGION: Region" "geog_id" "geog_name"
        (splitRow "AGEP: Age" "age_group" "age_group_label"
          (splitRow "LTHP: Type of long-term health condition" "lthc" "health_condition"
            (splitRow "SEXP: Sex" "sex" "sex_label" (rowDrop r "DATAFLOW"))))))

/-- One row of Pipeline B's pre-cast working frame. -/
def preCastRowB (r : Row) : Row :=
  rowRename "OBS_VALUE" "persons"
    (rowRename "TIME_PERIOD: Time Period" "year" (splitsB r))

/-- One row of Pipeline B's working frame. -/
def transformRowB (r : Row) : Row :=
  castRow "year" (castRow "persons" (preCastRowB r))

/-- The fact row Pipeline A owes to one raw input row, written directly
in terms of the raw cells: split codes for the five dimensions, integer
casts of time period and observation value. -/
def factRowOfA (r : Row) : Row :=
  [("sex", optToVal (split_code_and_label (rowGet r "SEXP: Sex")).1),
   ("age_group",
    optToVal (split_code_and_label
      (rowGet r "PCHAR: Selected person characteristic")).1),
   ("geog_id", optToVal (split_code_and_label (rowGet r "REGION: Region")).1),
   ("geog_type",
    optToVal (split_code_and_label (rowGet r "REGION_TYPE: Region Type")).1),
   ("state", optToVal (split_code_and_label (rowGet r "STATE: State")).1),
   ("year", int64OfValue (rowGet r "TIME_PERIOD: Time Period")),
   ("persons", int64OfValue (rowGet r "OBS_VALUE"))]

/-- The fact row Pipeline B owes to one raw input row. -/
def factRowOfB (r : Row) : Row :=
  [("sex", optToVal (split_code_and_label (rowGet r "SEXP: Sex")).1),
   ("lthc",
    optToVal (split_code_and_label
      (rowGet r "LTHP: Type of long-term health condition")).1),
   ("age_group", optToVal (split_code_and_label (rowGet r "AGEP: Age")).1),
   ("geog_id", optToVal (split_code_and_label (rowGet r "REGION: Region")).1),
   ("geog_type",
    optToVal (split_code_and_label (rowGet r "REGION_TYPE: Region Type")).1),
   ("state", optToVal (split_code_and_label (rowGet r "STATE: State")).1),
   ("year", int64OfValue (rowGet r "TIME_PERIOD: Time Period")),
   ("persons", int64OfValue (rowGet r "OBS_VALUE"))]

/-- The code/label lookup pair a raw input row contributes for source
column `src`. -/
def srcLookupPair (src : String) (r : Row) : LookupRow :=
  (optToVal (split_code_and_label (rowGet r src)).1,
   optToVal (split_code_and_label (rowGet r src)).2)

/-- The geography lookup row a raw input row contributes. -/
def srcGeoRow (r : Row) : GeoRow :=
  (optToVal (split_code_and_label (rowGet r "REGION: Region")).1,
   optToVal (split_code_and_label (rowGet r "REGION: Region")).2,
   optToVal (split_code_and_label (rowGet r "REGION_TYPE: Region Type")).1,
   optToVal (split_code_and_label (rowGet r "STATE: State")).1)

/-! ### Concrete sample inputs (from the repository's test data) -/

/-- A raw Pipeline A row, from `tests/test_processing_c21_g01_sa2.py`. -/
def sampleRowA : Row :=
  [("DATAFLOW", .str "ABS:C21_G01_SA2(1.0.0)"),
   ("SEXP: Sex", .str "1: Males"),
   ("PCHAR: Selected person characteristic",
    .str "65_74: Age groups: 65-74 years"),
   ("REGION: Region", .str "213051588: Truganina - South West"),
   ("REGION_TYPE: Region Type", .str "SA2: Statistical Area Level 2"),
   ("STATE: State", .str "2: Victoria"),
   ("TIME_PERIOD: Time Period", .str "2021"),
   ("OBS_VALUE", .int 601)]

/-- A one-row Pipeline A input batch. -/
def sampleFrameA : Frame := ⟨sampleRowA.map Prod.fst, [sampleRowA]⟩

/-- The Pipeline A sample with the required sex column removed. -/
def sampleFrameAnoSex : Frame :=
  ⟨(rowDrop sampleRowA "SEXP: Sex").map Prod.fst,
   [rowDrop sampleRowA "SEXP: Sex"]⟩

/-- The Pipeline A sample with a negative observation value. -/
def sampleFrameAneg : Frame :=
  ⟨sampleRowA.map Prod.fst, [rowSet sampleRowA "OBS_VALUE" (.int (-5))]⟩

/-- The Pipeline A sample with a non-integral observation value, on
which the `astype("Int64")` cast raises. -/
def sampleFrameAfloat : Frame :=
  ⟨sampleRowA.map Prod.fst, [rowSet sampleRowA "OBS_VALUE" (.str "1.5")]⟩

/-- A raw Pipeline B row, from `tests/test_processing_c21_g19_sa2.py`. -/
def sampleRowB : Row :=
  [("DATAFLOW", .str "ABS:C21_G19_SA2(1.0.0)"),
   ("SEXP: Sex", .str "1: Males"),
   ("LTHP: Type of long-term health condition", .str "10: Arthritis"),
   ("AGEP: Age", .str "25_34: Age groups: 25-34 years"),
   ("REGION: Region", .str "21305: Wyndham"),
   ("REGION_TYPE: Region Type", .str "SA3: Statistical Area Level 3"),
   ("STATE: State", .str "2: Victoria"),
   ("TIME_PERIOD: Time Period", .str "2021"),
   ("OBS_VALUE", .int 100)]

/-- A one-row Pipeline B input batch. -/
def sampleFrameB : Frame := ⟨sampleRowB.map Prod.fst, [sampleRowB]⟩

/-- The Pipeline B sample with the required health-condition column
removed. -/
def sampleFrameBnoLthp : Frame :=
  ⟨(rowDrop sampleRowB "LTHP: Type of long-term health condition").map Prod.fst,
   [rowDrop sampleRowB "LTHP: Type of long-term health condition"]⟩

/-- A processed-data directory holding one pre-existing Pipeline A sex
lookup row and one pre-existing shared health-condition row. -/
def sampleStore : Store :=
  { emptyStore with
    g01_sex := some [(.str "9", .str "Other")],
    common_health_condition_lookup := some [(.str "0", .str "No condition")] }

/-- A concrete persisted lookup file. -/
def lkF : List LookupRow := [(.str "1", .str "Males")]

/-- A concrete batch of new lookup rows. -/
def lkL : List LookupRow := [(.str "2", .str "Females")]

/-! ### Mutation discipline of the transforms

The Python transforms mix in-place mutations (`working[[c, l]] = ...`,
`working["persons"] = ...`) with rebinding operations that return fresh
frames (`df.copy()`, `drop`, `rename`, `working[cols].copy()`).  To state
that the caller's input frame is never mutated, each statement of the
transform body is replayed over an explicit heap of frame objects: cell 0
holds the caller's `df`, `df.copy()` allocates a fresh cell, in-place
column assignments update the cell the local name `working` is currently
bound to, and `drop`/`rename`/projection allocate fresh cells.  Lookup
construction only reads `working` and allocates; it cannot touch cell 0
and is omitted from the replay. -/

/-- Update heap cell `i` in place. -/
def heapUpd (h : List Frame) (i : Nat) (f : Frame → Frame) : List Frame :=
  h.set i (f (h.getD i ⟨[], []⟩))

/-- Statement-by-statement replay of `transform_c21_g01_sa2` over a heap
of frame objects.  Cell 0 is the caller's `df`; cell 1 is `df.copy()`;
cell 2 is the frame returned by `drop`; the five splits mutate cell 2;
cell 3 is the frame returned by `rename`; the two casts mutate cell 3;
cell 4 is `fact_df`.  A validation failure raises before the copy. -/
def transformHeap_c21_g01 (df : Frame) : List Frame :=
  if missingColumns expectedColsA df ≠ [] then [df]
  else
    let h : List Frame := [df]
    let h := h ++ [h.getD 0 ⟨[], []⟩]
    let h := h ++ [frameDropCol "DATAFLOW" (h.getD 1 ⟨[], []⟩)]
    let h := heapUpd h 2 (splitCol "SEXP: Sex" "sex" "sex_label")
    let h := heapUpd h 2
      (splitCol "PCHAR: Selected person characteristic" "age_group" "age_group_label")
    let h := heapUpd h 2 (splitCol "REGION: Region" "geog_id" "geog_name")
    let h := heapUpd h 2
      (splitCol "REGION_TYPE: Region Type" "geog_type" "geog_type_label")
    let h := heapUpd h 2 (splitCol "STATE: State" "state" "state_label")
    let h := h ++ [renameCol "OBS_VALUE" "persons"
      (renameCol "TIME_PERIOD: Time Period" "year" (h.getD 2 ⟨[], []⟩))]
    let h := heapUpd h 3 (castIntCol "persons")
    let h := heapUpd h 3 (castIntCol "year")
    let h := h ++ [projectFrame factColsA (h.getD 3 ⟨[], []⟩)]
    h

/-- Statement-by-statement replay of `transform_c21_g19_sa2` over a heap
of frame objects, with the six splits of Pipeline B. -/
def transformHeap_c21_g19 (df : Frame) : List Frame :=
  if missingColumns expectedColsB df ≠ [] then [df]
  else
    let h : List Frame := [df]
    let h := h ++ [h.getD 0 ⟨[], []⟩]
    let h := h ++ [frameDropCol "DATAFLOW" (h.getD 1 ⟨[], []⟩)]
    let h := heapUpd h 2 (splitCol "SEXP: Sex" "sex" "sex_label")
    let h := heapUpd h 2
      (splitCol "LTHP: Type of long-term health condition" "lthc" "health_condition")
    let h := heapUpd h 2 (splitCol "AGEP: Age" "age_group" "age_group_label")
    let h := heapUpd h 2 (splitCol "REGION: Region" "geog_id" "geog_name")
    let h := heapUpd h 2
      (splitCol "REGION_TYPE: Region Type" "geog_type" "geog_type_label")
    let h := heapUpd h 2 (splitCol "STATE: State" "state" "state_label")
    let h := h ++ [renameCol "OBS_VALUE" "persons"
      (renameCol "TIME_PERIOD: Time Period" "year" (h.getD 2 ⟨[], []⟩))]
    let h := heapUpd h 3 (castIntCol "persons")
    let h := heapUpd h 3 (castIntCol "year")
    let h := h ++ [projectFrame factColsB (h.getD 3 ⟨[], []⟩)]
    h

/-! ### Properties of de-duplication and merging -/

theorem mem_dropDuplicates {α : Type} [DecidableEq α] (l : List α) (x : α) :
    x ∈ dropDuplicates l ↔ x ∈ l := by
  induction l with
  | nil => simp [dropDuplicates]
  | cons a l ih =>
    rw [dropDuplicates]
    simp only [List.mem_cons, List.mem_filter, decide_eq_true_eq, ih]
    constructor
    · rintro (rfl | ⟨h, _⟩)
      · exact Or.inl rfl
      · exact Or.inr h
    · rintro (rfl | h)
      · exact Or.inl rfl
      · by_cases hx : x = a
        · exact Or.inl hx
        · exact Or.inr ⟨h, hx⟩

theorem nodup_dropDuplicates {α : Type} [DecidableEq α] (l : List α) :
    (dropDuplicates l).Nodup := by
  induction l with
  | nil => simp [dropDuplicates]
  | cons a l ih =>
    rw [dropDuplicates]
    refine List.nodup_cons.mpr ⟨fun hmem => ?_, ih.filter _⟩
    simp only [List.mem_filter, decide_eq_true_eq] at hmem
    exact hmem.2 rfl

theorem dropDuplicates_append_of_nodup {α : Type} [DecidableEq α] :
    ∀ (M : List α), M.Nodup → ∀ (L : List α),
      dropDuplicates (M ++ L) =
        M ++ (dropDuplicates L).filter (fun b => decide (b ∉ M)) := by
  intro M
  induction M with
  | nil =>
    intro _ L
    simp
  | cons a M ih =>
    intro hN L
    have haM : a ∉ M := (List.nodup_cons.mp hN).1
    rw [List.cons_append, dropDuplicates, ih (List.nodup_cons.mp hN).2 L,
      List.filter_append]
    have hMf : M.filter (fun b => decide (b ≠ a)) = M := by
      apply List.filter_eq_self.mpr
      intro x hx
      simp only [decide_eq_true_eq]
      intro hxa
      exact haM (hxa ▸ hx)
    rw [hMf, List.filter_filter, List.cons_append]
    congr 1
    congr 1
    apply List.filter_congr
    intro x _
    simp only [List.mem_cons, not_or, Bool.decide_and]

theorem dropDuplicates_of_nodup_subset {α : Type} [DecidableEq α]
    (M L : List α) (hM : M.Nodup) (hL : ∀ x ∈ L, x ∈ M) :
    dropDuplicates (M ++ L) = M := by
  rw [dropDuplicates_append_of_nodup M hM L]
  have : (dropDuplicates L).filter (fun b => decide (b ∉ M)) = [] := by
    apply List.filter_eq_nil_iff.mpr
    intro x hx
    simp only [decide_eq_true_eq, not_not]
    exact hL x ((mem_dropDuplicates L x).mp hx)
  rw [this, List.append_nil]

theorem nodup_mergeLookup_of_nodup {α : Type} [DecidableEq α]
    (le : α → α → Prop) [DecidableRel le] (existing : Option (List α))
    {newRows : List α} (hnew : newRows.Nodup) :
    (mergeLookup le existing newRows).Nodup := by
  cases existing with
  | none =>
    exact ((List.perm_insertionSort le _).nodup_iff).mpr hnew
  | some ex =>
    exact ((List.perm_insertionSort le _).nodup_iff).mpr
      (nodup_dropDuplicates _)

theorem sorted_mergeLookup {α : Type} [DecidableEq α]
    (le : α → α → Prop) [DecidableRel le] [IsTotal α le] [IsTrans α le]
    (existing : Option (List α)) (newRows : List α) :
    List.Sorted le (mergeLookup le existing newRows) := by
  cases existing with
  | none => exact List.sorted_insertionSort le _
  | some ex => exact List.sorted_insertionSort le _

theorem mem_mergeLookup {α : Type} [DecidableEq α] (le : α → α → Prop)
    [DecidableRel le] (existing : Option (List α)) (newRows : List α)
    (x : α) :
    x ∈ mergeLookup le existing newRows ↔
      x ∈ existing.getD [] ∨ x ∈ newRows := by
  cases existing with
  | none => simp [mergeLookup, List.mem_insertionSort]
  | some ex =>
    simp [mergeLookup, List.mem_insertionSort, mem_dropDuplicates,
      List.mem_append]

/-! ### Reading cells through the row operations -/

theorem rowGet_nil (c : String) : rowGet [] c = Value.null := rfl

theorem rowGet_cons (p : String × Value) (r : Row) (c : String) :
    rowGet (p :: r) c = if p.1 = c then p.2 else rowGet r c := by
  by_cases h : p.1 = c <;> simp [rowGet, List.find?, h]

theorem rowGet_rowSet_self (r : Row) (c : String) (v : Value) :
    rowGet (rowSet r c v) c = v := by
  induction r with
  | nil => simp [rowSet, rowGet_cons]
  | cons p r ih =>
    by_cases h : p.1 = c
    · simp [rowSet, h, rowGet_cons]
    · simp [rowSet, h, rowGet_cons, ih]

theorem rowGet_rowSet_ne {c' c : String} (h : c' ≠ c) (r : Row) (v : Value) :
    rowGet (rowSet r c v) c' = rowGet r c' := by
  have hcc : ¬(c = c') := fun hc => h hc.symm
  induction r with
  | nil =>
    show rowGet [(c, v)] c' = rowGet [] c'
    rw [rowGet_cons, if_neg hcc]
  | cons p r ih =>
    by_cases hp : p.1 = c
    · show rowGet (if p.1 = c then (c, v) :: r else p :: rowSet r c v) c' = _
      rw [if_pos hp, rowGet_cons, rowGet_cons, if_neg hcc, if_neg (hp ▸ hcc)]
    · show rowGet (if p.1 = c then (c, v) :: r else p :: rowSet r c v) c' = _
      rw [if_neg hp, rowGet_cons, rowGet_cons, ih]

theorem rowGet_rowDrop_ne {c' c : String} (h : c' ≠ c) (r : Row) :
    rowGet (rowDrop r c) c' = rowGet r c' := by
  induction r with
  | nil => rfl
  | cons p r ih =>
    by_cases hp : p.1 = c
    · show rowGet (if p.1 = c then rowDrop r c else p :: rowDrop r c) c' = _
      rw [if_pos hp, rowGet_cons, if_neg (hp ▸ (fun hc : c = c' => h hc.symm)), ih]
    · show rowGet (if p.1 = c then rowDrop r c else p :: rowDrop r c) c' = _
      rw [if_neg hp, rowGet_cons, rowGet_cons, ih]

theorem rowGet_rowRename_ne {c' old new : String} (h1 : c' ≠ old)
    (h2 : c' ≠ new) (r : Row) :
    rowGet (rowRename old new r) c' = rowGet r c' := by
  induction r with
  | nil => rfl
  | cons p r ih =>
    show rowGet ((if p.1 = old then (new, p.2) else p) :: _) c' = _
    by_cases hp : p.1 = old
    · rw [if_pos hp, rowGet_cons, rowGet_cons,
        if_neg (fun hc : new = c' => h2 hc.symm),
        if_neg (hp ▸ (fun hc : old = c' => h1 hc.symm))]
      exact ih
    · rw [if_neg hp, rowGet_cons, rowGet_cons]
      by_cases hpc : p.1 = c'
      · rw [if_pos hpc, if_pos hpc]
      · rw [if_neg hpc, if_neg hpc]
        exact ih

theorem rowGet_rowRename_getNew {old new : String} {r : Row}
    (h : new ∉ rKeys r) : rowGet (rowRename old new r) new = rowGet r old := by
  induction r with
  | nil => rfl
  | cons p r ih =>
    simp only [rKeys, List.map_cons, List.mem_cons, not_or] at h
    show rowGet ((if p.1 = old then (new, p.2) else p) :: _) new = _
    by_cases hp : p.1 = old
    · rw [if_pos hp, rowGet_cons, if_pos rfl, rowGet_cons, if_pos hp]
    · have hpn : ¬(p.1 = new) := fun hc => h.1 hc.symm
      rw [if_neg hp, rowGet_cons, if_neg hpn, rowGet_cons, if_neg hp]
      exact ih (by simpa [rKeys] using h.2)

theorem mem_rKeys_rowSet {x c : String} {r : Row} {v : Value} :
    x ∈ rKeys (rowSet r c v) ↔ x ∈ rKeys r ∨ x = c := by
  induction r with
  | nil =>
    show x ∈ rKeys [(c, v)] ↔ _
    simp [rKeys]
  | cons p r ih =>
    show x ∈ rKeys (if p.1 = c then (c, v) :: r else p :: rowSet r c v) ↔ _
    by_cases hp : p.1 = c
    · rw [if_pos hp]
      show x ∈ c :: rKeys r ↔ _
      simp only [List.mem_cons, rKeys, List.map_cons]
      constructor
      · rintro (rfl | hx)
        · exact Or.inr rfl
        · exact Or.inl (Or.inr hx)
      · rintro ((rfl | hx) | rfl)
        · exact Or.inl hp
        · exact Or.inr hx
        · exact Or.inl rfl
    · rw [if_neg hp]
      show x ∈ p.1 :: rKeys (rowSet r c v) ↔ x ∈ p.1 :: rKeys r ∨ x = c
      simp only [List.mem_cons, ih]
      tauto

theorem mem_rKeys_rowDrop {x c : String} {r : Row} :
    x ∈ rKeys (rowDrop r c) → x ∈ rKeys r := by
  induction r with
  | nil => exact fun h => h
  | cons p r ih =>
    show x ∈ rKeys (if p.1 = c then rowDrop r c else p :: rowDrop r c) →
      x ∈ p.1 :: rKeys r
    by_cases hp : p.1 = c
    · rw [if_pos hp]
      intro hx
      exact List.mem_cons_of_mem _ (ih hx)
    · rw [if_neg hp]
      intro hx
      rcases List.mem_cons.mp hx with rfl | hx
      · exact List.mem_cons_self _ _
      · exact List.mem_cons_of_mem _ (ih hx)

theorem mem_rKeys_rowRename_of {x old new : String} {r : Row}
    (h : x ∈ rKeys (rowRename old new r)) : x ∈ rKeys r ∨ x = new := by
  induction r with
  | nil => exact absurd h (List.not_mem_nil x)
  | cons p r ih =>
    have h' : x ∈ (if p.1 = old then new else p.1) :: rKeys (rowRename old new r) := by
      by_cases hp : p.1 = old
      · simpa [rowRename, rKeys, hp] using h
      · simpa [rowRename, rKeys, hp] using h
    rcases List.mem_cons.mp h' with rfl | hx
    · by_cases hp : p.1 = old
      · rw [if_pos hp]
        exact Or.inr rfl
      · rw [if_neg hp]
        exact Or.inl (List.mem_cons_self _ _)
    · rcases ih hx with h2 | h2
      · exact Or.inl (List.mem_cons_of_mem _ h2)
      · exact Or.inr h2

theorem mem_rKeys_splitRow {x src a b : String} {r : Row} :
    x ∈ rKeys (splitRow src a b r) ↔ x ∈ rKeys r ∨ x = a ∨ x = b := by
  simp [splitRow, mem_rKeys_rowSet, or_assoc]

/-! ### The working frames as per-row maps -/

theorem preCastA_rows (df : Frame) :
    (preCastA df).rows = df.rows.map preCastRowA := by
  simp only [preCastA, renameCol, splitCol, frameDropCol, List.map_map]
  rfl

theorem workingFrameA_rows (df : Frame) :
    (workingFrameA df).rows = df.rows.map transformRowA := by
  simp only [workingFrameA, castIntCol, preCastA_rows, List.map_map]
  rfl

set_option maxHeartbeats 1000000 in
theorem preCastB_rows (df : Frame) :
    (preCastB df).rows = df.rows.map preCastRowB := by
  simp only [preCastB, renameCol, splitCol, frameDropCol, List.map_map]
  rfl

set_option maxHeartbeats 1000000 in
theorem workingFrameB_rows (df : Frame) :
    (workingFrameB df).rows = df.rows.map transformRowB := by
  simp only [workingFrameB, castIntCol, preCastB_rows, List.map_map]
  rfl

theorem year_not_mem_splitsA (r : Row)
    (hr : ∀ c ∈ rKeys r, c ∈ expectedColsA) :
    "year" ∉ rKeys (splitsA r) := by
  intro hmem
  have hy : ("year" : String) ∈ rKeys r := by
    have := by simpa [splitsA, mem_rKeys_splitRow] using hmem
    exact mem_rKeys_rowDrop this
  have h2 := hr _ hy
  simp [expectedColsA] at h2

theorem persons_not_mem_renameA (r : Row)
    (hr : ∀ c ∈ rKeys r, c ∈ expectedColsA) :
    "persons" ∉ rKeys (rowRename "TIME_PERIOD: Time Period" "year" (splitsA r)) := by
  intro hmem
  rcases mem_rKeys_rowRename_of hmem with h | h
  · have hp : ("persons" : String) ∈ rKeys r := by
      have := by simpa [splitsA, mem_rKeys_splitRow] using h
      exact mem_rKeys_rowDrop this
    have h2 := hr _ hp
    simp [expectedColsA] at h2
  · simp at h

theorem year_not_mem_splitsB (r : Row)
    (hr : ∀ c ∈ rKeys r, c ∈ expectedColsB) :
    "year" ∉ rKeys (splitsB r) := by
  intro hmem
  have hy : ("year" : String) ∈ rKeys r := by
    have := by simpa [splitsB, mem_rKeys_splitRow] using hmem
    exact mem_rKeys_rowDrop this
  have h2 := hr _ hy
  simp [expectedColsB] at h2

theorem persons_not_mem_renameB (r : Row)
    (hr : ∀ c ∈ rKeys r, c ∈ expectedColsB) :
    "persons" ∉ rKeys (rowRename "TIME_PERIOD: Time Period" "year" (splitsB r)) := by
  intro hmem
  rcases mem_rKeys_rowRename_of hmem with h | h
  · have hp : ("persons" : String) ∈ rKeys r := by
      have := by simpa [splitsB, mem_rKeys_splitRow] using h
      exact mem_rKeys_rowDrop this
    have h2 := hr _ hp
    simp [expectedColsB] at h2
  · simp at h

/-! ### The numeric source cells seen by the casts -/

theorem rowGet_preCastRowA_persons (r : Row)
    (hr : ∀ c ∈ rKeys r, c ∈ expectedColsA) :
    rowGet (preCastRowA r) "persons" = rowGet r "OBS_VALUE" := by
  have hp := persons_not_mem_renameA r hr
  simp [preCastRowA, rowGet_rowRename_getNew hp, rowGet_rowRename_ne]
  simp [splitsA, splitRow, rowGet_rowSet_ne, rowGet_rowDrop_ne]

theorem rowGet_preCastRowA_year (r : Row)
    (hr : ∀ c ∈ rKeys r, c ∈ expectedColsA) :
    rowGet (preCastRowA r) "year" = rowGet r "TIME_PERIOD: Time Period" := by
  have hy := year_not_mem_splitsA r hr
  simp [preCastRowA, rowGet_rowRename_ne, rowGet_rowRename_getNew hy]
  simp [splitsA, splitRow, rowGet_rowSet_ne, rowGet_rowDrop_ne]

theorem rowGet_preCastRowB_persons (r : Row)
    (hr : ∀ c ∈ rKeys r, c ∈ expectedColsB) :
    rowGet (preCastRowB r) "persons" = rowGet r "OBS_VALUE" := by
  have hp := persons_not_mem_renameB r hr
  simp [preCastRowB, rowGet_rowRename_getNew hp, rowGet_rowRename_ne]
  simp [splitsB, splitRow, rowGet_rowSet_ne, rowGet_rowDrop_ne]

theorem rowGet_preCastRowB_year (r : Row)
    (hr : ∀ c ∈ rKeys r, c ∈ expectedColsB) :
    rowGet (preCastRowB r) "year" = rowGet r "TIME_PERIOD: Time Period" := by
  have hy := year_not_mem_splitsB r hr
  simp [preCastRowB, rowGet_rowRename_ne, rowGet_rowRename_getNew hy]
  simp [splitsB, splitRow, rowGet_rowSet_ne, rowGet_rowDrop_ne]

theorem castCellRaises_eq_false_of_safe {v : Value}
    (h : cellCastSafeb v = true) : castCellRaises v = false := by
  cases v with
  | null => rfl
  | int n =>
    simp only [cellCastSafeb, decide_eq_true_eq] at h
    simp only [castCellRaises, decide_eq_false_iff_not]
    exact Nat.not_le.mpr (lt_of_lt_of_le h (by norm_num))
  | str s =>
    simp only [cellCastSafeb, Bool.and_eq_true, Bool.not_eq_true'] at h
    obtain ⟨hinf, hrest⟩ := h
    cases hp : parseDec s with
    | none => simp [castCellRaises, hinf, hp]
    | some d =>
      rw [hp] at hrest
      simp only [Bool.and_eq_true, decide_eq_true_eq] at hrest
      simp [castCellRaises, hinf, hp, hrest.1]
      exact lt_of_lt_of_le hrest.2 (by norm_num)

theorem noRaiseA_of_safe (df : Frame)
    (hkeys : ∀ r ∈ df.rows, rKeys r = df.cols)
    (hcols : ∀ c ∈ df.cols, c ∈ expectedColsA)
    (hsafe : castSafeInput df) :
    castColumnRaises "persons" (preCastA df) = false ∧
      castColumnRaises "year" (preCastA df) = false := by
  constructor
  · rw [castColumnRaises, List.any_eq_false]
    intro r hrmem
    rw [preCastA_rows] at hrmem
    obtain ⟨r0, hr0, rfl⟩ := List.mem_map.mp hrmem
    have hrk : ∀ c ∈ rKeys r0, c ∈ expectedColsA := fun c hc =>
      hcols c ((hkeys r0 hr0) ▸ hc)
    rw [rowGet_preCastRowA_persons r0 hrk]
    simp [castCellRaises_eq_false_of_safe (hsafe r0 hr0).2]
  · rw [castColumnRaises, List.any_eq_false]
    intro r hrmem
    rw [preCastA_rows] at hrmem
    obtain ⟨r0, hr0, rfl⟩ := List.mem_map.mp hrmem
    have hrk : ∀ c ∈ rKeys r0, c ∈ expectedColsA := fun c hc =>
      hcols c ((hkeys r0 hr0) ▸ hc)
    rw [rowGet_preCastRowA_year r0 hrk]
    simp [castCellRaises_eq_false_of_safe (hsafe r0 hr0).1]

theorem noRaiseB_of_safe (df : Frame)
    (hkeys : ∀ r ∈ df.rows, rKeys r = df.cols)
    (hcols : ∀ c ∈ df.cols, c ∈ expectedColsB)
    (hsafe : castSafeInput df) :
    castColumnRaises "persons" (preCastB df) = false ∧
      castColumnRaises "year" (preCastB df) = false := by
  constructor
  · rw [castColumnRaises, List.any_eq_false]
    intro r hrmem
    rw [preCastB_rows] at hrmem
    obtain ⟨r0, hr0, rfl⟩ := List.mem_map.mp hrmem
    have hrk : ∀ c ∈ rKeys r0, c ∈ expectedColsB := fun c hc =>
      hcols c ((hkeys r0 hr0) ▸ hc)
    rw [rowGet_preCastRowB_persons r0 hrk]
    simp [castCellRaises_eq_false_of_safe (hsafe r0 hr0).2]
  · rw [castColumnRaises, List.any_eq_false]
    intro r hrmem
    rw [preCastB_rows] at hrmem
    obtain ⟨r0, hr0, rfl⟩ := List.mem_map.mp hrmem
    have hrk : ∀ c ∈ rKeys r0, c ∈ expectedColsB := fun c hc =>
      hcols c ((hkeys r0 hr0) ▸ hc)
    rw [rowGet_preCastRowB_year r0 hrk]
    simp [castCellRaises_eq_false_of_safe (hsafe r0 hr0).1]

/-- On a column-complete batch, a non-integral observation value makes
the persons cast raise: the transform aborts with the `TypeError`, and
nothing is produced. -/
theorem transformA_raises (df : Frame)
    (hkeys : ∀ r ∈ df.rows, rKeys r = df.cols)
    (hcols : ∀ c ∈ df.cols, c ∈ expectedColsA)
    (hmiss : missingColumns expectedColsA df = [])
    (hraise : ∃ r ∈ df.rows, castCellRaises (rowGet r "OBS_VALUE") = true) :
    transform_c21_g01_sa2 df = .error (.typeError "persons") := by
  have hcol : castColumnRaises "persons" (preCastA df) = true := by
    obtain ⟨r0, hr0, hc⟩ := hraise
    rw [castColumnRaises, List.any_eq_true]
    refine ⟨preCastRowA r0, ?_, ?_⟩
    · rw [preCastA_rows]
      exact List.mem_map_of_mem _ hr0
    · have hrk : ∀ c ∈ rKeys r0, c ∈ expectedColsA := fun c hc2 =>
        hcols c ((hkeys r0 hr0) ▸ hc2)
      rw [rowGet_preCastRowA_persons r0 hrk]
      simp [hc]
  simp [transform_c21_g01_sa2, hmiss, hcol]

/-! ### Properties of `sortedLookup` -/

theorem nodup_sortedLookup {α : Type} [DecidableEq α] (le : α → α → Prop)
    [DecidableRel le] (rows : List α) : (sortedLookup le rows).Nodup :=
  ((List.perm_insertionSort le _).nodup_iff).mpr (nodup_dropDuplicates rows)

theorem sorted_sortedLookup {α : Type} [DecidableEq α] (le : α → α → Prop)
    [DecidableRel le] [IsTotal α le] [IsTrans α le] (rows : List α) :
    List.Sorted le (sortedLookup le rows) :=
  List.sorted_insertionSort le _

theorem mem_sortedLookup {α : Type} [DecidableEq α] (le : α → α → Prop)
    [DecidableRel le] {rows : List α} {x : α} :
    x ∈ sortedLookup le rows ↔ x ∈ rows := by
  simp [sortedLookup, List.mem_insertionSort, mem_dropDuplicates]

/-! ### Reducing the transforms on validated input -/

theorem transformA_eq (df : Frame)
    (h : missingColumns expectedColsA df = [])
    (hnrP : castColumnRaises "persons" (preCastA df) = false)
    (hnrY : castColumnRaises "year" (preCastA df) = false) :
    transform_c21_g01_sa2 df = .ok
      { fact := projectFrame factColsA (workingFrameA df)
        geo_lookup := sortedLookup geoLE ((workingFrameA df).rows.map geoRowOf)
        sex_lookup := sortedLookup lookupLE
          ((workingFrameA df).rows.map (lookupRowOf "sex" "sex_label"))
        age_lookup := sortedLookup lookupLE
          ((workingFrameA df).rows.map (lookupRowOf "age_group" "age_group_label"))
        geog_type_lookup := sortedLookup lookupLE
          ((workingFrameA df).rows.map (lookupRowOf "geog_type" "geog_type_label"))
        state_lookup := sortedLookup lookupLE
          ((workingFrameA df).rows.map (lookupRowOf "state" "state_label")) } := by
  simp [transform_c21_g01_sa2, h, hnrP, hnrY]

theorem transformB_eq (df : Frame)
    (h : missingColumns expectedColsB df = [])
    (hnrP : castColumnRaises "persons" (preCastB df) = false)
    (hnrY : castColumnRaises "year" (preCastB df) = false) :
    transform_c21_g19_sa2 df = .ok
      { fact := projectFrame factColsB (workingFrameB df)
        health_condition_lookup := sortedLookup lookupLE
          ((workingFrameB df).rows.map (lookupRowOf "lthc" "health_condition"))
        geo_lookup := sortedLookup geoLE ((workingFrameB df).rows.map geoRowOf)
        sex_lookup := sortedLookup lookupLE
          ((workingFrameB df).rows.map (lookupRowOf "sex" "sex_label"))
        age_lookup := sortedLookup lookupLE
          ((workingFrameB df).rows.map (lookupRowOf "age_group" "age_group_label"))
        geog_type_lookup := sortedLookup lookupLE
          ((workingFrameB df).rows.map (lookupRowOf "geog_type" "geog_type_label"))
        state_lookup := sortedLookup lookupLE
          ((workingFrameB df).rows.map (lookupRowOf "state" "state_label")) } := by
  simp [transform_c21_g19_sa2, h, hnrP, hnrY]

/-! ### Per-row correctness of the working-frame columns -/

theorem factProj_transformRowA (r : Row)
    (hr : ∀ c ∈ rKeys r, c ∈ expectedColsA) :
    factColsA.map (fun c => (c, rowGet (transformRowA r) c)) = factRowOfA r := by
  have hy := year_not_mem_splitsA r hr
  have hp := persons_not_mem_renameA r hr
  simp only [factColsA, List.map_cons, List.map_nil]
  simp [transformRowA, preCastRowA, castRow, rowGet_rowSet_self, rowGet_rowSet_ne,
    rowGet_rowRename_ne, rowGet_rowRename_getNew hy, rowGet_rowRename_getNew hp]
  simp [splitsA, splitRow, rowGet_rowSet_self, rowGet_rowSet_ne,
    rowGet_rowDrop_ne, factRowOfA]

theorem factProj_transformRowB (r : Row)
    (hr : ∀ c ∈ rKeys r, c ∈ expectedColsB) :
    factColsB.map (fun c => (c, rowGet (transformRowB r) c)) = factRowOfB r := by
  have hy := year_not_mem_splitsB r hr
  have hp := persons_not_mem_renameB r hr
  simp only [factColsB, List.map_cons, List.map_nil]
  simp [transformRowB, preCastRowB, castRow, rowGet_rowSet_self, rowGet_rowSet_ne,
    rowGet_rowRename_ne, rowGet_rowRename_getNew hy, rowGet_rowRename_getNew hp]
  simp [splitsB, splitRow, rowGet_rowSet_self, rowGet_rowSet_ne,
    rowGet_rowDrop_ne, factRowOfB]

theorem lookupPairA_sex (r : Row) :
    lookupRowOf "sex" "sex_label" (transformRowA r) =
      srcLookupPair "SEXP: Sex" r := by
  simp [lookupRowOf, transformRowA, preCastRowA, castRow, rowGet_rowSet_self,
    rowGet_rowSet_ne, rowGet_rowRename_ne]
  simp [splitsA, splitRow, rowGet_rowSet_self, rowGet_rowSet_ne,
    rowGet_rowDrop_ne, srcLookupPair]

theorem lookupPairA_age (r : Row) :
    lookupRowOf "age_group" "age_group_label" (transformRowA r) =
      srcLookupPair "PCHAR: Selected person characteristic" r := by
  simp [lookupRowOf, transformRowA, preCastRowA, castRow, rowGet_rowSet_self,
    rowGet_rowSet_ne, rowGet_rowRename_ne]
  simp [splitsA, splitRow, rowGet_rowSet_self, rowGet_rowSet_ne,
    rowGet_rowDrop_ne, srcLookupPair]

theorem lookupPairA_geogType (r : Row) :
    lookupRowOf "geog_type" "geog_type_label" (transformRowA r) =
      srcLookupPair "REGION_TYPE: Region Type" r := by
  simp [lookupRowOf, transformRowA, preCastRowA, castRow, rowGet_rowSet_self,
    rowGet_rowSet_ne, rowGet_rowRename_ne]
  simp [splitsA, splitRow, rowGet_rowSet_self, rowGet_rowSet_ne,
    rowGet_rowDrop_ne, srcLookupPair]

theorem lookupPairA_state (r : Row) :
    lookupRowOf "state" "state_label" (transformRowA r) =
      srcLookupPair "STATE: State" r := by
  simp [lookupRowOf, transformRowA, preCastRowA, castRow, rowGet_rowSet_self,
    rowGet_rowSet_ne, rowGet_rowRename_ne]
  simp [splitsA, splitRow, rowGet_rowSet_self, rowGet_rowSet_ne,
    rowGet_rowDrop_ne, srcLookupPair]

theorem geoRowA (r : Row) : geoRowOf (transformRowA r) = srcGeoRow r := by
  simp [geoRowOf, transformRowA, preCastRowA, castRow, rowGet_rowSet_self,
    rowGet_rowSet_ne, rowGet_rowRename_ne]
  simp [splitsA, splitRow, rowGet_rowSet_self, rowGet_rowSet_ne,
    rowGet_rowDrop_ne, srcGeoRow]

theorem lookupPairB_sex (r : Row) :
    lookupRowOf "sex" "sex_label" (transformRowB r) =
      srcLookupPair "SEXP: Sex" r := by
  simp [lookupRowOf, transformRowB, preCastRowB, castRow, rowGet_rowSet_self,
    rowGet_rowSet_ne, rowGet_rowRename_ne]
  simp [splitsB, splitRow, rowGet_rowSet_self, rowGet_rowSet_ne,
    rowGet_rowDrop_ne, srcLookupPair]

theorem lookupPairB_lthc (r : Row) :
    lookupRowOf "lthc" "health_condition" (transformRowB r) =
      srcLookupPair "LTHP: Type of long-term health condition" r := by
  simp [lookupRowOf, transformRowB, preCastRowB, castRow, rowGet_rowSet_self,
    rowGet_rowSet_ne, rowGet_rowRename_ne]
  simp [splitsB, splitRow, rowGet_rowSet_self, rowGet_rowSet_ne,
    rowGet_rowDrop_ne, srcLookupPair]

theorem lookupPairB_age (r : Row) :
    lookupRowOf "age_group" "age_group_label" (transformRowB r) =
      srcLookupPair "AGEP: Age" r := by
  simp [lookupRowOf, transformRowB, preCastRowB, castRow, rowGet_rowSet_self,
    rowGet_rowSet_ne, rowGet_rowRename_ne]
  simp [splitsB, splitRow, rowGet_rowSet_self, rowGet_rowSet_ne,
    rowGet_rowDrop_ne, srcLookupPair]

theorem lookupPairB_geogType (r : Row) :
    lookupRowOf "geog_type" "geog_type_label" (transformRowB r) =
      srcLookupPair "REGION_TYPE: Region Type" r := by
  simp [lookupRowOf, transformRowB, preCastRowB, castRow, rowGet_rowSet_self,
    rowGet_rowSet_ne, rowGet_rowRename_ne]
  simp [splitsB, splitRow, rowGet_rowSet_self, rowGet_rowSet_ne,
    rowGet_rowDrop_ne, srcLookupPair]

theorem lookupPairB_state (r : Row) :
    lookupRowOf "state" "state_label" (transformRowB r) =
      srcLookupPair "STATE: State" r := by
  simp [lookupRowOf, transformRowB, preCastRowB, castRow, rowGet_rowSet_self,
    rowGet_rowSet_ne, rowGet_rowRename_ne]
  simp [splitsB, splitRow, rowGet_rowSet_self, rowGet_rowSet_ne,
    rowGet_rowDrop_ne, srcLookupPair]

theorem geoRowB (r : Row) : geoRowOf (transformRowB r) = srcGeoRow r := by
  simp [geoRowOf, transformRowB, preCastRowB, castRow, rowGet_rowSet_self,
    rowGet_rowSet_ne, rowGet_rowRename_ne]
  simp [splitsB, splitRow, rowGet_rowSet_self, rowGet_rowSet_ne,
    rowGet_rowDrop_ne, srcGeoRow]

/-! ### Properties of the colon partition -/

theorem partitionAtColon_no_colon (l : List Char) (h : ':' ∉ l) :
    partitionAtColon l = (l, none) := by
  induction l with
  | nil => rfl
  | cons c cs ih =>
    simp only [List.mem_cons, not_or] at h
    have hc : ¬(c = ':') := fun hcc => h.1 hcc.symm
    simp [partitionAtColon, hc, ih h.2]

theorem partitionAtColon_append (l r : List Char) (h : ':' ∉ l) :
    partitionAtColon (l ++ ':' :: r) = (l, some r) := by
  induction l with
  | nil => simp [partitionAtColon]
  | cons c cs ih =>
    simp only [List.mem_cons, not_or] at h
    have hc : ¬(c = ':') := fun hcc => h.1 hcc.symm
    simp [partitionAtColon, hc, ih h.2]

/-! ## Claims -/

/-- C1: the shared-lookup merge operation is idempotent.  For every
lookup table `L`, every persisted file content `F`, and every sort key
(any total transitive order, covering every declared sort-key list),
merging `L` into `F` and then merging `L` again into the result yields
exactly the merge of `L` into `F`, and that table has no duplicate rows
and is sorted by the key. -/
theorem merge_and_write_lookup_idempotent {α : Type} [DecidableEq α]
    (le : α → α → Prop) [DecidableRel le] [IsTotal α le] [IsTrans α le]
    (F L : List α) :
    mergeLookup le (some (mergeLookup le (some F) L)) L =
        mergeLookup le (some F) L ∧
      (mergeLookup le (some F) L).Nodup ∧
      List.Sorted le (mergeLookup le (some F) L) := by
  have hNodup : (mergeLookup le (some F) L).Nodup :=
    ((List.perm_insertionSort le _).nodup_iff).mpr (nodup_dropDuplicates _)
  have hSorted : List.Sorted le (mergeLookup le (some F) L) :=
    List.sorted_insertionSort le _
  have hSub : ∀ x ∈ L, x ∈ mergeLookup le (some F) L := by
    intro x hx
    show x ∈ List.insertionSort le (dropDuplicates (F ++ L))
    rw [List.mem_insertionSort, mem_dropDuplicates]
    exact List.mem_append_right F hx
  refine ⟨?_, hNodup, hSorted⟩
  show List.insertionSort le
    (dropDuplicates (mergeLookup le (some F) L ++ L)) = _
  rw [dropDuplicates_of_nodup_subset _ _ hNodup hSub,
    hSorted.insertionSort_eq]

/-- Witness for C1: the instance-order hypotheses hold for the code/label
lookup order, and the merge evaluates on a concrete file and batch. -/
theorem merge_and_write_lookup_idempotent_witness :
    (mergeLookup lookupLE (some (mergeLookup lookupLE (some lkF) lkL)) lkL =
        mergeLookup lookupLE (some lkF) lkL ∧
      (mergeLookup lookupLE (some lkF) lkL).Nodup ∧
      List.Sorted lookupLE (mergeLookup lookupLE (some lkF) lkL)) ∧
      mergeLookup lookupLE (some lkF) lkL =
        [(Value.str "1", Value.str "Males"),
         (Value.str "2", Value.str "Females")] :=
  ⟨merge_and_write_lookup_idempotent lookupLE lkF lkL, by decide⟩

/-- C2: the code/label splitter.  Null input yields `(null, null)`; a
non-null input is coerced to its string form and split on the first colon
only (stated via the unique decomposition `l ++ ':' :: r` with `':' ∉ l`);
with no colon the trimmed string (or null if empty) is the code and the
label is null; with a colon both parts are trimmed and empty parts become
null.  The concrete examples of the spec evaluate accordingly. -/
theorem split_code_and_label_spec :
    split_code_and_label Value.null = (none, none) ∧
      (∀ (v : Value), v ≠ Value.null → ∀ (l r : List Char),
        (pyStr v).toList = l ++ ':' :: r → ':' ∉ l →
        split_code_and_label v =
          (strOrNone (pyStrip (String.mk l)),
           strOrNone (pyStrip (String.mk r)))) ∧
      (∀ (v : Value), v ≠ Value.null → ':' ∉ (pyStr v).toList →
        split_code_and_label v = (strOrNone (pyStrip (pyStr v)), none)) ∧
      split_code_and_label (Value.str "3: Persons") =
        (some "3", some "Persons") ∧
      split_code_and_label (Value.str "SA2") = (some "SA2", none) ∧
      split_code_and_label (Value.str "") = (none, none) ∧
      split_code_and_label (Value.str "3") = (some "3", none) := by
  refine ⟨rfl, ?_, ?_, by decide, by decide, by decide, by decide⟩
  · intro v hv l r hsplit hnmem
    cases v with
    | null => exact absurd rfl hv
    | str s =>
      simp only [pyStr] at hsplit
      simp only [split_code_and_label, pyStr]
      rw [hsplit, partitionAtColon_append l r hnmem]
    | int n =>
      simp only [pyStr] at hsplit
      simp only [split_code_and_label, pyStr]
      rw [hsplit, partitionAtColon_append l r hnmem]
  · intro v hv hnmem
    cases v with
    | null => exact absurd rfl hv
    | str s =>
      simp only [pyStr] at hnmem
      simp only [split_code_and_label, pyStr]
      rw [partitionAtColon_no_colon _ hnmem]
      rfl
    | int n =>
      simp only [pyStr] at hnmem
      simp only [split_code_and_label, pyStr]
      rw [partitionAtColon_no_colon _ hnmem]
      rfl

/-- Witness for C2 at a concrete value with a colon: the decomposition
hypotheses are discharged by evaluation. -/
theorem split_code_and_label_spec_witness :
    split_code_and_label (Value.str "A: B") =
      (strOrNone (pyStrip (String.mk ['A'])),
       strOrNone (pyStrip (String.mk [' ', 'B']))) :=
  split_code_and_label_spec.2.1 (Value.str "A: B") (by decide)
    ['A'] [' ', 'B'] (by decide) (by decide)

/-- C8: the splitter is a pure total function of its input value: in this
embedding it is a total Lean function covering every constructor of
`Value` (null, string and integer inputs, hence every string-coercible
cell), and each component of the returned pair is either null or a
nonempty trimmed string — the result is always a well-formed
`(code, label)` pair and no input raises. -/
theorem split_code_and_label_total (v : Value) :
    split_code_and_label v =
        ((split_code_and_label v).1, (split_code_and_label v).2) ∧
      (split_code_and_label v).1 ≠ some "" ∧
      (split_code_and_label v).2 ≠ some "" := by
  have hs : ∀ s : String, strOrNone s ≠ some "" := by
    intro s
    by_cases h : s = "" <;> simp [strOrNone, h]
  refine ⟨rfl, ?_⟩
  cases v with
  | null => simp [split_code_and_label]
  | str s =>
    simp only [split_code_and_label]
    rcases hp : partitionAtColon (pyStr (Value.str s)).toList with ⟨code, lab⟩
    cases lab <;> simp [hs]
  | int n =>
    simp only [split_code_and_label]
    rcases hp : partitionAtColon (pyStr (Value.int n)).toList with ⟨code, lab⟩
    cases lab <;> simp [hs]

/-- C10: each pipeline's transform leaves the caller's input batch
unchanged.  In the statement-by-statement replay of the transform bodies
over a heap of frame objects, the cell holding the caller's `df` still
holds exactly the original frame (same columns, same cell values) after
all splitting, dropping, renaming and casting, because every in-place
mutation targets the fresh copy. -/
theorem transforms_do_not_mutate_input (df : Frame) :
    (transformHeap_c21_g01 df).get? 0 = some df ∧
      (transformHeap_c21_g19 df).get? 0 = some df := by
  constructor
  · unfold transformHeap_c21_g01
    split <;> rfl
  · unfold transformHeap_c21_g19
    split <;> rfl

/-- C3: an input batch missing at least one required column (the optional
`DATAFLOW` identifier excepted) makes each pipeline's transform fail with
a validation error whose payload is exactly the set of required columns
absent from the input (all of them), and the process function persists
nothing: the store is returned unchanged for every flag combination. -/
theorem missing_columns_fail (df : Frame) (store : Store) :
    (missingColumns expectedColsA df ≠ [] →
      transform_c21_g01_sa2 df =
          .error (.validation (missingColumns expectedColsA df)) ∧
        ∀ wo : Bool, process_c21_g01_sa2 df store wo =
          (.error (.validation (missingColumns expectedColsA df)), store)) ∧
      (missingColumns expectedColsB df ≠ [] →
        transform_c21_g19_sa2 df =
            .error (.validation (missingColumns expectedColsB df)) ∧
          ∀ wo rb mh : Bool, process_c21_g19_sa2 df store wo rb mh =
            (.error (.validation (missingColumns expectedColsB df)), store)) ∧
      (∀ c, c ∈ missingColumns expectedColsA df ↔
        c ∈ expectedColsA ∧ c ∉ df.cols ∧ c ≠ "DATAFLOW") ∧
      (∀ c, c ∈ missingColumns expectedColsB df ↔
        c ∈ expectedColsB ∧ c ∉ df.cols ∧ c ≠ "DATAFLOW") := by
  refine ⟨?_, ?_, ?_, ?_⟩
  · intro h
    have ht : transform_c21_g01_sa2 df =
        .error (.validation (missingColumns expectedColsA df)) := by
      simp [transform_c21_g01_sa2, h]
    exact ⟨ht, fun wo => by simp [process_c21_g01_sa2, ht]⟩
  · intro h
    have ht : transform_c21_g19_sa2 df =
        .error (.validation (missingColumns expectedColsB df)) := by
      simp [transform_c21_g19_sa2, h]
    exact ⟨ht, fun wo rb mh => by simp [process_c21_g19_sa2, ht]⟩
  · intro c
    simp [missingColumns, List.mem_filter]
  · intro c
    simp [missingColumns, List.mem_filter]

/-- Witness for C3: dropping the sex column from the Pipeline A sample
(resp. the health-condition column from the Pipeline B sample) produces
the validation error naming exactly that column, and the store is
untouched. -/
theorem missing_columns_fail_witness :
    transform_c21_g01_sa2 sampleFrameAnoSex =
        .error (.validation ["SEXP: Sex"]) ∧
      process_c21_g01_sa2 sampleFrameAnoSex emptyStore true =
        (.error (.validation ["SEXP: Sex"]), emptyStore) ∧
      transform_c21_g19_sa2 sampleFrameBnoLthp =
        .error (.validation ["LTHP: Type of long-term health condition"]) ∧
      process_c21_g19_sa2 sampleFrameBnoLthp emptyStore true true true =
        (.error (.validation ["LTHP: Type of long-term health condition"]),
         emptyStore) := by
  have hA := (missing_columns_fail sampleFrameAnoSex emptyStore).1 (by decide)
  have hB :=
    (missing_columns_fail sampleFrameBnoLthp emptyStore).2.1 (by decide)
  have hmA : missingColumns expectedColsA sampleFrameAnoSex =
      ["SEXP: Sex"] := by decide
  have hmB : missingColumns expectedColsB sampleFrameBnoLthp =
      ["LTHP: Type of long-term health condition"] := by decide
  refine ⟨?_, ?_, ?_, ?_⟩
  · rw [hA.1, hmA]
  · rw [hA.2 true, hmA]
  · rw [hB.1, hmB]
  · rw [hB.2 true true true, hmB]

/-- C4: for every valid input batch (rows carry exactly the frame's
columns, all of which are expected columns, no required column is
missing, and the two numeric source columns are cast-safe so the
`astype("Int64")` cast does not raise), Pipeline A's fact table selects
exactly the columns `[sex, age_group, geog_id, geog_type, state, year,
persons]` and its rows are the 1:1 order-preserving image of the input
rows — same row count, no row dropped, added, filtered or
de-duplicated. -/
theorem fact_projection_one_to_one (df : Frame)
    (hkeys : ∀ r ∈ df.rows, rKeys r = df.cols)
    (hcols : ∀ c ∈ df.cols, c ∈ expectedColsA)
    (hmiss : missingColumns expectedColsA df = [])
    (hsafe : castSafeInput df) :
    ∃ out, transform_c21_g01_sa2 df = .ok out ∧
      out.fact.cols = factColsA ∧
      out.fact.rows.length = df.rows.length ∧
      out.fact.rows = df.rows.map factRowOfA := by
  obtain ⟨hnrP, hnrY⟩ := noRaiseA_of_safe df hkeys hcols hsafe
  refine ⟨_, transformA_eq df hmiss hnrP hnrY, rfl, ?_, ?_⟩
  · simp [projectFrame, workingFrameA_rows]
  · show (projectFrame factColsA (workingFrameA df)).rows = _
    simp only [projectFrame, workingFrameA_rows, List.map_map]
    apply List.map_congr_left
    intro r hr
    have hrk : ∀ c ∈ rKeys r, c ∈ expectedColsA := fun c hc =>
      hcols c ((hkeys r hr) ▸ hc)
    exact factProj_transformRowA r hrk

/-- Witness for C4 at the one-row sample batch: the validity hypotheses
hold by evaluation and the fact row is the expected projection. -/
theorem fact_projection_one_to_one_witness :
    ∃ out, transform_c21_g01_sa2 sampleFrameA = .ok out ∧
      out.fact.cols = factColsA ∧
      out.fact.rows.length = sampleFrameA.rows.length ∧
      out.fact.rows = sampleFrameA.rows.map factRowOfA :=
  fact_projection_one_to_one sampleFrameA (by decide) (by decide) (by decide)
    (by decide)

/-- C5: for every valid input batch (well-formed rows, expected columns
only, none missing, numeric columns cast-safe), every lookup table
produced by either pipeline is de-duplicated on its full row content
(`Nodup`) and sorted ascending by its declared key column(s); and every
source row's code/label contribution survives as a lookup row — in
particular two source rows carrying the same code with different labels
both survive as distinct rows. -/
theorem lookup_tables_deduplicated_sorted (dfA dfB : Frame)
    (hkA : ∀ r ∈ dfA.rows, rKeys r = dfA.cols)
    (hcA : ∀ c ∈ dfA.cols, c ∈ expectedColsA)
    (hA : missingColumns expectedColsA dfA = [])
    (hsA : castSafeInput dfA)
    (hkB : ∀ r ∈ dfB.rows, rKeys r = dfB.cols)
    (hcB : ∀ c ∈ dfB.cols, c ∈ expectedColsB)
    (hB : missingColumns expectedColsB dfB = [])
    (hsB : castSafeInput dfB) :
    ∃ outA outB,
      transform_c21_g01_sa2 dfA = .ok outA ∧
      transform_c21_g19_sa2 dfB = .ok outB ∧
      (outA.geo_lookup.Nodup ∧ List.Sorted geoLE outA.geo_lookup ∧
        ∀ r ∈ dfA.rows, srcGeoRow r ∈ outA.geo_lookup) ∧
      (outA.sex_lookup.Nodup ∧ List.Sorted lookupLE outA.sex_lookup ∧
        ∀ r ∈ dfA.rows, srcLookupPair "SEXP: Sex" r ∈ outA.sex_lookup) ∧
      (outA.age_lookup.Nodup ∧ List.Sorted lookupLE outA.age_lookup ∧
        ∀ r ∈ dfA.rows,
          srcLookupPair "PCHAR: Selected person characteristic" r ∈
            outA.age_lookup) ∧
      (outA.geog_type_lookup.Nodup ∧
        List.Sorted lookupLE outA.geog_type_lookup ∧
        ∀ r ∈ dfA.rows,
          srcLookupPair "REGION_TYPE: Region Type" r ∈
            outA.geog_type_lookup) ∧
      (outA.state_lookup.Nodup ∧ List.Sorted lookupLE outA.state_lookup ∧
        ∀ r ∈ dfA.rows, srcLookupPair "STATE: State" r ∈ outA.state_lookup) ∧
      (outB.health_condition_lookup.Nodup ∧
        List.Sorted lookupLE outB.health_condition_lookup ∧
        ∀ r ∈ dfB.rows,
          srcLookupPair "LTHP: Type of long-term health condition" r ∈
            outB.health_condition_lookup) ∧
      (outB.geo_lookup.Nodup ∧ List.Sorted geoLE outB.geo_lookup ∧
        ∀ r ∈ dfB.rows, srcGeoRow r ∈ outB.geo_lookup) ∧
      (outB.sex_lookup.Nodup ∧ List.Sorted lookupLE outB.sex_lookup ∧
        ∀ r ∈ dfB.rows, srcLookupPair "SEXP: Sex" r ∈ outB.sex_lookup) ∧
      (outB.age_lookup.Nodup ∧ List.Sorted lookupLE outB.age_lookup ∧
        ∀ r ∈ dfB.rows, srcLookupPair "AGEP: Age" r ∈ outB.age_lookup) ∧
      (outB.geog_type_lookup.Nodup ∧
        List.Sorted lookupLE outB.geog_type_lookup ∧
        ∀ r ∈ dfB.rows,
          srcLookupPair "REGION_TYPE: Region Type" r ∈
            outB.geog_type_lookup) ∧
      (outB.state_lookup.Nodup ∧ List.Sorted lookupLE outB.state_lookup ∧
        ∀ r ∈ dfB.rows, srcLookupPair "STATE: State" r ∈ outB.state_lookup) := by
  obtain ⟨hnrPA, hnrYA⟩ := noRaiseA_of_safe dfA hkA hcA hsA
  obtain ⟨hnrPB, hnrYB⟩ := noRaiseB_of_safe dfB hkB hcB hsB
  refine ⟨_, _, transformA_eq dfA hA hnrPA hnrYA,
    transformB_eq dfB hB hnrPB hnrYB,
    ⟨nodup_sortedLookup _ _, sorted_sortedLookup _ _, ?_⟩,
    ⟨nodup_sortedLookup _ _, sorted_sortedLookup _ _, ?_⟩,
    ⟨nodup_sortedLookup _ _, sorted_sortedLookup _ _, ?_⟩,
    ⟨nodup_sortedLookup _ _, sorted_sortedLookup _ _, ?_⟩,
    ⟨nodup_sortedLookup _ _, sorted_sortedLookup _ _, ?_⟩,
    ⟨nodup_sortedLookup _ _, sorted_sortedLookup _ _, ?_⟩,
    ⟨nodup_sortedLookup _ _, sorted_sortedLookup _ _, ?_⟩,
    ⟨nodup_sortedLookup _ _, sorted_sortedLookup _ _, ?_⟩,
    ⟨nodup_sortedLookup _ _, sorted_sortedLookup _ _, ?_⟩,
    ⟨nodup_sortedLookup _ _, sorted_sortedLookup _ _, ?_⟩,
    ⟨nodup_sortedLookup _ _, sorted_sortedLookup _ _, ?_⟩⟩
  · intro r hr
    rw [mem_sortedLookup, workingFrameA_rows, List.map_map]
    exact List.mem_map.mpr ⟨r, hr, geoRowA r⟩
  · intro r hr
    rw [mem_sortedLookup, workingFrameA_rows, List.map_map]
    exact List.mem_map.mpr ⟨r, hr, lookupPairA_sex r⟩
  · intro r hr
    rw [mem_sortedLookup, workingFrameA_rows, List.map_map]
    exact List.mem_map.mpr ⟨r, hr, lookupPairA_age r⟩
  · intro r hr
    rw [mem_sortedLookup, workingFrameA_rows, List.map_map]
    exact List.mem_map.mpr ⟨r, hr, lookupPairA_geogType r⟩
  · intro r hr
    rw [mem_sortedLookup, workingFrameA_rows, List.map_map]
    exact List.mem_map.mpr ⟨r, hr, lookupPairA_state r⟩
  · intro r hr
    rw [mem_sortedLookup, workingFrameB_rows, List.map_map]
    exact List.mem_map.mpr ⟨r, hr, lookupPairB_lthc r⟩
  · intro r hr
    rw [mem_sortedLookup, workingFrameB_rows, List.map_map]
    exact List.mem_map.mpr ⟨r, hr, geoRowB r⟩
  · intro r hr
    rw [mem_sortedLookup, workingFrameB_rows, List.map_map]
    exact List.mem_map.mpr ⟨r, hr, lookupPairB_sex r⟩
  · intro r hr
    rw [mem_sortedLookup, workingFrameB_rows, List.map_map]
    exact List.mem_map.mpr ⟨r, hr, lookupPairB_age r⟩
  · intro r hr
    rw [mem_sortedLookup, workingFrameB_rows, List.map_map]
    exact List.mem_map.mpr ⟨r, hr, lookupPairB_geogType r⟩
  · intro r hr
    rw [mem_sortedLookup, workingFrameB_rows, List.map_map]
    exact List.mem_map.mpr ⟨r, hr, lookupPairB_state r⟩

/-- Witness for C5 at the one-row sample batches; the validity hypotheses
hold by evaluation. -/
theorem lookup_tables_deduplicated_sorted_witness :
    ∃ outA outB,
      transform_c21_g01_sa2 sampleFrameA = .ok outA ∧
      transform_c21_g19_sa2 sampleFrameB = .ok outB ∧
      (outA.geo_lookup.Nodup ∧ List.Sorted geoLE outA.geo_lookup ∧
        ∀ r ∈ sampleFrameA.rows, srcGeoRow r ∈ outA.geo_lookup) ∧
      (outA.sex_lookup.Nodup ∧ List.Sorted lookupLE outA.sex_lookup ∧
        ∀ r ∈ sampleFrameA.rows,
          srcLookupPair "SEXP: Sex" r ∈ outA.sex_lookup) ∧
      (outA.age_lookup.Nodup ∧ List.Sorted lookupLE outA.age_lookup ∧
        ∀ r ∈ sampleFrameA.rows,
          srcLookupPair "PCHAR: Selected person characteristic" r ∈
            outA.age_lookup) ∧
      (outA.geog_type_lookup.Nodup ∧
        List.Sorted lookupLE outA.geog_type_lookup ∧
        ∀ r ∈ sampleFrameA.rows,
          srcLookupPair "REGION_TYPE: Region Type" r ∈
            outA.geog_type_lookup) ∧
      (outA.state_lookup.Nodup ∧ List.Sorted lookupLE outA.state_lookup ∧
        ∀ r ∈ sampleFrameA.rows,
          srcLookupPair "STATE: State" r ∈ outA.state_lookup) ∧
      (outB.health_condition_lookup.Nodup ∧
        List.Sorted lookupLE outB.health_condition_lookup ∧
        ∀ r ∈ sampleFrameB.rows,
          srcLookupPair "LTHP: Type of long-term health condition" r ∈
            outB.health_condition_lookup) ∧
      (outB.geo_lookup.Nodup ∧ List.Sorted geoLE outB.geo_lookup ∧
        ∀ r ∈ sampleFrameB.rows, srcGeoRow r ∈ outB.geo_lookup) ∧
      (outB.sex_lookup.Nodup ∧ List.Sorted lookupLE outB.sex_lookup ∧
        ∀ r ∈ sampleFrameB.rows,
          srcLookupPair "SEXP: Sex" r ∈ outB.sex_lookup) ∧
      (outB.age_lookup.Nodup ∧ List.Sorted lookupLE outB.age_lookup ∧
        ∀ r ∈ sampleFrameB.rows,
          srcLookupPair "AGEP: Age" r ∈ outB.age_lookup) ∧
      (outB.geog_type_lookup.Nodup ∧
        List.Sorted lookupLE outB.geog_type_lookup ∧
        ∀ r ∈ sampleFrameB.rows,
          srcLookupPair "REGION_TYPE: Region Type" r ∈
            outB.geog_type_lookup) ∧
      (outB.state_lookup.Nodup ∧ List.Sorted lookupLE outB.state_lookup ∧
        ∀ r ∈ sampleFrameB.rows,
          srcLookupPair "STATE: State" r ∈ outB.state_lookup) :=
  lookup_tables_deduplicated_sorted sampleFrameA sampleFrameB
    (by decide) (by decide) (by decide) (by decide)
    (by decide) (by decide) (by decide) (by decide)

/-- C6 counterexample: a negative raw observation value (`-5`) is NOT
coerced to null — it survives the persons cast as the negative integer
`-5`, contradicting the claim that negative raw values become null. -/
theorem negative_persons_value_not_nulled :
    (transform_c21_g01_sa2 sampleFrameAneg).toOption.map
        (fun out => out.fact.rows.map (fun r => rowGet r "persons")) =
      some [Value.int (-5)] ∧
      Value.int (-5) ≠ Value.null := by decide

/-- C6 amended: a raw value that fails numeric coercion becomes null
rather than raising, and a value that coerces to an integer — negative
values included — is preserved as that integer, not nulled; on valid
cast-safe batches both transforms succeed.  The casts are, however, not
total: a cell coercing to a non-integral number makes the
`astype("Int64")` cast raise, aborting the transform with a type
error. -/
theorem casts_coerce_and_raise (df dfB dfR : Frame)
    (hkA : ∀ r ∈ df.rows, rKeys r = df.cols)
    (hcA : ∀ c ∈ df.cols, c ∈ expectedColsA)
    (hA : missingColumns expectedColsA df = [])
    (hsA : castSafeInput df)
    (hkB : ∀ r ∈ dfB.rows, rKeys r = dfB.cols)
    (hcB : ∀ c ∈ dfB.cols, c ∈ expectedColsB)
    (hB : missingColumns expectedColsB dfB = [])
    (hsB : castSafeInput dfB)
    (hkR : ∀ r ∈ dfR.rows, rKeys r = dfR.cols)
    (hcR : ∀ c ∈ dfR.cols, c ∈ expectedColsA)
    (hR : missingColumns expectedColsA dfR = [])
    (hraise : ∃ r ∈ dfR.rows,
      castCellRaises (rowGet r "OBS_VALUE") = true) :
    (∃ out, transform_c21_g01_sa2 df = .ok out) ∧
      (∃ out, transform_c21_g19_sa2 dfB = .ok out) ∧
      (∀ v, to_numeric_coerce v = none → int64OfValue v = Value.null) ∧
      (∀ v d, to_numeric_coerce v = some d → d.isInt = true →
        int64OfValue v = Value.int d.toInt) ∧
      (∀ n : Int, int64OfValue (Value.int n) = Value.int n) ∧
      transform_c21_g01_sa2 dfR = .error (.typeError "persons") := by
  obtain ⟨hnrPA, hnrYA⟩ := noRaiseA_of_safe df hkA hcA hsA
  obtain ⟨hnrPB, hnrYB⟩ := noRaiseB_of_safe dfB hkB hcB hsB
  refine ⟨⟨_, transformA_eq df hA hnrPA hnrYA⟩,
    ⟨_, transformB_eq dfB hB hnrPB hnrYB⟩, ?_, ?_, ?_,
    transformA_raises dfR hkR hcR hR hraise⟩
  · intro v h
    simp [int64OfValue, h]
  · intro v d h hint
    simp [int64OfValue, h, hint]
  · intro n
    simp [int64OfValue, to_numeric_coerce, Dec.isInt, Dec.toInt, pow_zero,
      Int.emod_one, Int.ediv_one]

/-- Witness for C6: the sample batches succeed, the batch with
observation value `"1.5"` raises, and the parser casts `"601.0"` and
`"6e2"` to the integers 601 and 600 while a non-numeric cell becomes
null. -/
theorem casts_coerce_and_raise_witness :
    ((∃ out, transform_c21_g01_sa2 sampleFrameA = .ok out) ∧
      (∃ out, transform_c21_g19_sa2 sampleFrameB = .ok out) ∧
      (∀ v, to_numeric_coerce v = none → int64OfValue v = Value.null) ∧
      (∀ v d, to_numeric_coerce v = some d → d.isInt = true →
        int64OfValue v = Value.int d.toInt) ∧
      (∀ n : Int, int64OfValue (Value.int n) = Value.int n) ∧
      transform_c21_g01_sa2 sampleFrameAfloat =
        .error (.typeError "persons")) ∧
      int64OfValue (Value.str "601.0") = Value.int 601 ∧
      int64OfValue (Value.str "6e2") = Value.int 600 ∧
      int64OfValue (Value.str "Males") = Value.null :=
  ⟨casts_coerce_and_raise sampleFrameA sampleFrameB sampleFrameAfloat
      (by decide) (by decide) (by decide) (by decide) (by decide) (by decide)
      (by decide) (by decide) (by decide) (by decide) (by decide)
      ⟨rowSet sampleRowA "OBS_VALUE" (.str "1.5"), by decide, by decide⟩,
    by decide, by decide, by decide⟩

/-- Reduction of `process_c21_g19_sa2` in merge mode (all flags true) on
a batch whose transform succeeds: the fact artifact and the standalone
health-condition lookup artifact are written, the health-condition lookup
is merged into the shared file, and the five shared lookups are merged
into the Pipeline A files; the returned outputs carry the merged
tables. -/
theorem process_g19_merge_mode_eq (df : Frame) (store : Store)
    (out : OutputsB) (hok : transform_c21_g19_sa2 df = .ok out) :
    process_c21_g19_sa2 df store true true true =
      (.ok
        { fact := out.fact
          health_condition_lookup := mergeLookup lookupLE
            store.common_health_condition_lookup out.health_condition_lookup
          geo_lookup := mergeLookup geoLE store.g01_geo out.geo_lookup
          sex_lookup := mergeLookup lookupLE store.g01_sex out.sex_lookup
          age_lookup := mergeLookup lookupLE store.g01_age out.age_lookup
          geog_type_lookup := mergeLookup lookupLE store.g01_geog_type
            out.geog_type_lookup
          state_lookup := mergeLookup lookupLE store.g01_state
            out.state_lookup },
       { store with
         g19_health_conditions := some out.fact
         g19_health_condition_lookup := some out.health_condition_lookup
         common_health_condition_lookup := some (mergeLookup lookupLE
           store.common_health_condition_lookup out.health_condition_lookup)
         g01_geo := some (mergeLookup geoLE store.g01_geo out.geo_lookup)
         g01_sex := some (mergeLookup lookupLE store.g01_sex out.sex_lookup)
         g01_age := some (mergeLookup lookupLE store.g01_age out.age_lookup)
         g01_geog_type := some (mergeLookup lookupLE store.g01_geog_type
           out.geog_type_lookup)
         g01_state := some (mergeLookup lookupLE store.g01_state
           out.state_lookup) }) := by
  simp [process_c21_g19_sa2, hok]

/-- C7 counterexample: in merge mode (the default: `write_output`,
`reuse_base_lookups` and `merge_health_lookup` all true) the standalone
Pipeline-B health-condition lookup artifact IS written — it holds this
run's health-condition lookup, refuting "no standalone health-condition
lookup file is written in this mode". -/
theorem merge_mode_writes_standalone_health_artifact :
    (process_c21_g19_sa2 sampleFrameB emptyStore true true
        true).2.g19_health_condition_lookup =
      some [(Value.str "10", Value.str "Arthritis")] := by decide

/-- C7 amended: in merge mode the health-condition lookup IS unioned into
the shared cross-dataset health-condition lookup file (de-duplicated and
sorted by code) and the merged table replaces the returned outputs field;
however the standalone Pipeline-B health-condition lookup artifact is
also written (before the merge), so a standalone artifact does exist in
this mode. -/
theorem merge_mode_health_lookup_shared (df : Frame) (store : Store)
    (hkeys : ∀ r ∈ df.rows, rKeys r = df.cols)
    (hcols : ∀ c ∈ df.cols, c ∈ expectedColsB)
    (h : missingColumns expectedColsB df = [])
    (hsafe : castSafeInput df) :
    ∃ out fo,
      transform_c21_g19_sa2 df = .ok out ∧
      (process_c21_g19_sa2 df store true true true).1 = .ok fo ∧
      (process_c21_g19_sa2 df store true true
          true).2.common_health_condition_lookup =
        some (mergeLookup lookupLE store.common_health_condition_lookup
          out.health_condition_lookup) ∧
      fo.health_condition_lookup =
        mergeLookup lookupLE store.common_health_condition_lookup
          out.health_condition_lookup ∧
      (mergeLookup lookupLE store.common_health_condition_lookup
          out.health_condition_lookup).Nodup ∧
      List.Sorted lookupLE
        (mergeLookup lookupLE store.common_health_condition_lookup
          out.health_condition_lookup) ∧
      (process_c21_g19_sa2 df store true true
          true).2.g19_health_condition_lookup =
        some out.health_condition_lookup := by
  obtain ⟨hnrP, hnrY⟩ := noRaiseB_of_safe df hkeys hcols hsafe
  have hok := transformB_eq df h hnrP hnrY
  have hp := process_g19_merge_mode_eq df store _ hok
  have h1 := congrArg Prod.fst hp
  have h2 := congrArg Prod.snd hp
  refine ⟨_, _, hok, h1, ?_, rfl, ?_, ?_, ?_⟩
  · rw [h2]
  · exact nodup_mergeLookup_of_nodup lookupLE _ (nodup_sortedLookup _ _)
  · exact sorted_mergeLookup lookupLE _ _
  · rw [h2]

/-- Witness for C7's amended claim at the sample batch and a store with a
pre-existing shared health-condition row. -/
theorem merge_mode_health_lookup_shared_witness :
    ∃ out fo,
      transform_c21_g19_sa2 sampleFrameB = .ok out ∧
      (process_c21_g19_sa2 sampleFrameB sampleStore true true true).1 =
        .ok fo ∧
      (process_c21_g19_sa2 sampleFrameB sampleStore true true
          true).2.common_health_condition_lookup =
        some (mergeLookup lookupLE
          sampleStore.common_health_condition_lookup
          out.health_condition_lookup) ∧
      fo.health_condition_lookup =
        mergeLookup lookupLE sampleStore.common_health_condition_lookup
          out.health_condition_lookup ∧
      (mergeLookup lookupLE sampleStore.common_health_condition_lookup
          out.health_condition_lookup).Nodup ∧
      List.Sorted lookupLE
        (mergeLookup lookupLE sampleStore.common_health_condition_lookup
          out.health_condition_lookup) ∧
      (process_c21_g19_sa2 sampleFrameB sampleStore true true
          true).2.g19_health_condition_lookup =
        some out.health_condition_lookup :=
  merge_mode_health_lookup_shared sampleFrameB sampleStore (by decide)
    (by decide) (by decide) (by decide)

/-- C9: when Pipeline B persists in merge mode, the lookup fields of the
returned outputs are the merged cross-dataset tables: for every
pre-existing persisted state, a row belongs to a returned lookup exactly
when it is already present in the corresponding target file (Pipeline A's
lookup files, or the shared health-condition file) or contributed by this
run — the union, not merely this dataset's own rows. -/
theorem merge_mode_returns_union (df : Frame) (store : Store)
    (hkeys : ∀ r ∈ df.rows, rKeys r = df.cols)
    (hcols : ∀ c ∈ df.cols, c ∈ expectedColsB)
    (h : missingColumns expectedColsB df = [])
    (hsafe : castSafeInput df) :
    ∃ out fo,
      transform_c21_g19_sa2 df = .ok out ∧
      (process_c21_g19_sa2 df store true true true).1 = .ok fo ∧
      (∀ x, x ∈ fo.geo_lookup ↔
        x ∈ store.g01_geo.getD [] ∨ x ∈ out.geo_lookup) ∧
      (∀ x, x ∈ fo.sex_lookup ↔
        x ∈ store.g01_sex.getD [] ∨ x ∈ out.sex_lookup) ∧
      (∀ x, x ∈ fo.age_lookup ↔
        x ∈ store.g01_age.getD [] ∨ x ∈ out.age_lookup) ∧
      (∀ x, x ∈ fo.geog_type_lookup ↔
        x ∈ store.g01_geog_type.getD [] ∨ x ∈ out.geog_type_lookup) ∧
      (∀ x, x ∈ fo.state_lookup ↔
        x ∈ store.g01_state.getD [] ∨ x ∈ out.state_lookup) ∧
      (∀ x, x ∈ fo.health_condition_lookup ↔
        x ∈ store.common_health_condition_lookup.getD [] ∨
          x ∈ out.health_condition_lookup) := by
  obtain ⟨hnrP, hnrY⟩ := noRaiseB_of_safe df hkeys hcols hsafe
  have hok := transformB_eq df h hnrP hnrY
  have hp := process_g19_merge_mode_eq df store _ hok
  have h1 := congrArg Prod.fst hp
  refine ⟨_, _, hok, h1, ?_, ?_, ?_, ?_, ?_, ?_⟩ <;>
    intro x <;>
    exact mem_mergeLookup _ _ _ x

/-- Witness for C9 at the sample batch and a store holding pre-existing
Pipeline A rows. -/
theorem merge_mode_returns_union_witness :
    ∃ out fo,
      transform_c21_g19_sa2 sampleFrameB = .ok out ∧
      (process_c21_g19_sa2 sampleFrameB sampleStore true true true).1 =
        .ok fo ∧
      (∀ x, x ∈ fo.geo_lookup ↔
        x ∈ sampleStore.g01_geo.getD [] ∨ x ∈ out.geo_lookup) ∧
      (∀ x, x ∈ fo.sex_lookup ↔
        x ∈ sampleStore.g01_sex.getD [] ∨ x ∈ out.sex_lookup) ∧
      (∀ x, x ∈ fo.age_lookup ↔
        x ∈ sampleStore.g01_age.getD [] ∨ x ∈ out.age_lookup) ∧
      (∀ x, x ∈ fo.geog_type_lookup ↔
        x ∈ sampleStore.g01_geog_type.getD [] ∨
          x ∈ out.geog_type_lookup) ∧
      (∀ x, x ∈ fo.state_lookup ↔
        x ∈ sampleStore.g01_state.getD [] ∨ x ∈ out.state_lookup) ∧
      (∀ x, x ∈ fo.health_condition_lookup ↔
        x ∈ sampleStore.common_health_condition_lookup.getD [] ∨
          x ∈ out.health_condition_lookup) :=
  merge_mode_returns_union sampleFrameB sampleStore (by decide) (by decide)
    (by decide) (by decide)

end ABSData
